import Mathlib

/-!
Verification of the GaGoForge validation engine against its specification.

The definitions below are a shallow embedding of the Python sources under
`backend/validation/`: dictionaries become structures with the fields the
embedded code reads, Python floats become `ℚ`, fallible code returns
`Except`, and mutation of the `parsed_code` dict is modelled by returning
the updated record.  Each definition's doc comment names the Python
function it translates.
-/

/-! ## String utilities

Python string operations used by the validators, implemented by structural
recursion on `List Char` so that concrete evaluations reduce in the kernel.
-/

/-- `begins_with s p` holds when list `s` starts with list `p`
(the building block for Python's `in` substring test). -/
def begins_with : List Char → List Char → Bool
  | _, [] => true
  | [], _ :: _ => false
  | a :: as, b :: bs => (a = b) && begins_with as bs

/-- `contains_sub s sub` is Python's `sub in s` on strings
(the empty string is contained in everything). -/
def contains_sub : List Char → List Char → Bool
  | [], sub => sub.isEmpty
  | a :: t, sub => begins_with (a :: t) sub || contains_sub t sub

/-- Python `s.__contains__(sub)`, i.e. `sub in s`. -/
def str_contains (s sub : String) : Bool :=
  contains_sub s.toList sub.toList

/-- Python `s.endswith(suf)`. -/
def str_ends_with (s suf : String) : Bool :=
  begins_with s.toList.reverse suf.toList.reverse

/-- Python `s.startswith(pre)`. -/
def str_starts_with (s pre : String) : Bool :=
  begins_with s.toList pre.toList

/-- Python `s.lower()` (ASCII, which is all the validators compare). -/
def py_lower (s : String) : String :=
  ⟨s.toList.map Char.toLower⟩

/-- Python `s.lstrip('.')`: drop every leading dot. -/
def lstrip_dots (s : String) : String :=
  ⟨s.toList.dropWhile (· = '.')⟩

/-- Splitting at every character the predicate accepts: keeps empty pieces,
and splitting the empty list gives `[[]]`. -/
def py_split_pred (p : Char → Bool) : List Char → List (List Char)
  | [] => [[]]
  | a :: t =>
    if p a then [] :: py_split_pred p t
    else
      match py_split_pred p t with
      | [] => [[a]]
      | h :: r => (a :: h) :: r

/-- Python `s.split(c)` for a single-character separator: keeps empty pieces,
and splitting the empty string gives `[""]`. -/
def py_split_char (c : Char) : List Char → List (List Char) :=
  py_split_pred (fun a => a = c)

/-- Python `s.split('.')` as strings. -/
def py_split_dot (s : String) : List String :=
  (py_split_char '.' s.toList).map List.asString

/-- Python `s.split()` with no argument: split on whitespace runs, dropping
empty pieces.  `Char.isWhitespace` covers space, tab, newline and carriage
return (Python additionally treats the rare `\x0b`/`\x0c` as whitespace). -/
def py_split_ws (s : String) : List String :=
  ((py_split_pred Char.isWhitespace s.toList).map List.asString).filter
    (fun w => ¬ w.isEmpty)

/-- Python `s.replace('.', '_')`. -/
def replace_dots_underscore (s : String) : String :=
  ⟨s.toList.map (fun ch => if ch = '.' then '_' else ch)⟩

/-- Python's rendering of `None` versus a string value inside an f-string. -/
def opt_str : Option String → String
  | some s => s
  | none => "None"

/-- Python `repr` of a list of strings, as interpolated by f-strings such as
`f"Missing imports: \x7bmissing\x7d"`. -/
def py_repr_list (l : List String) : String :=
  "[" ++ String.intercalate ", " (l.map (fun s => "\x27" ++ s ++ "\x27")) ++ "]"

/-! ## Data model

Shapes of the dictionaries flowing through the pipeline
(`ParseResult`, semantic profile, requirement spec, component results).
Optional dict keys become `Option` fields; `.get` defaults become `getD`.
-/

/-- One entry of an ES6/require import's `specifiers` list
(`parser_service.py`, JS paths). -/
structure Specifier where
  localName : String := ""
  imported : Option String := none
deriving Repr, DecidableEq

/-- One entry of `ParseResult['imports']`.  `type` is the discriminator the
code branches on (`import`, `from_import`, `require`, or other);
`name` is only populated for `from_import`.  `asname` models the dict's
`alias` value (`None` when absent); no validator reads it field-wise, but
`str(imports)` renders it, which one structure check probes. -/
structure ImportRef where
  type : String
  module : String := ""
  name : String := ""
  asname : Option String := none
  specifiers : List Specifier := []
deriving Repr, DecidableEq

/-- A method entry of a parsed class (`ClassInfo['methods']`). -/
structure MethodInfo where
  name : String
deriving Repr, DecidableEq

/-- One entry of `ParseResult['classes']`. -/
structure ClassInfo where
  name : String
  bases : List String := []
  methods : List MethodInfo := []
deriving Repr, DecidableEq

/-- One entry of `ParseResult['functions']`.  `params` models
`found_func.get('params', [])` (Python-parsed functions store their
parameters under `args`, so for them this list is empty). -/
structure FunctionInfo where
  name : String
  params : List String := []
deriving Repr, DecidableEq

/-- One entry of `ParseResult['exports']` (`declaration` may be `None`). -/
structure ExportRef where
  declaration : Option String := none
deriving Repr, DecidableEq

/-- A `hook_calls` / `custom_hooks` fact: the embedded validators read the
`hook` (resp. `name`) key. -/
structure HookCall where
  hook : String
deriving Repr, DecidableEq

/-- A named semantic fact (only its presence is inspected). -/
structure NamedFact where
  name : String
deriving Repr, DecidableEq

/-- A `constructor_calls` fact (`class` and `context` keys). -/
structure ConstructorCall where
  className : String
  context : String := ""
deriving Repr, DecidableEq

/-- An `async_patterns` fact (`uses_fetch` key). -/
structure AsyncPattern where
  uses_fetch : Bool := false
deriving Repr, DecidableEq

/-- A `return_statements` fact (`properties` key). -/
structure ReturnStatement where
  properties : List String := []
deriving Repr, DecidableEq

/-- A `cleanup_functions` fact (`has_cleanup` key). -/
structure CleanupFunction where
  has_cleanup : Bool := false
deriving Repr, DecidableEq

/-- A `component_props` fact (`type` key, compared with `'propTypes'`). -/
structure PropFact where
  type : Option String := none
deriving Repr, DecidableEq

/-- The `component_types` sub-dict (counts, `.get(_, 0)`). -/
structure ComponentTypes where
  class_components : Nat := 0
  forward_ref_components : Nat := 0
deriving Repr, DecidableEq

/-- The semantic profile dict produced by the framework analyzers, restricted
to the fact categories the embedded validators read.  A missing category is
the empty list, matching `semantics.get(key, [])`. -/
structure Semantics where
  model_fields : List String := []
  queryset_operations : List String := []
  serializer_classes : List String := []
  hook_calls : List HookCall := []
  state_declarations : List String := []
  event_handlers : List String := []
  jsx_elements : List String := []
  view_methods : List String := []
  view_decorators : List String := []
  permission_checks : List String := []
  custom_hooks : List NamedFact := []
  component_types : ComponentTypes := {}
  component_props : List PropFact := []
  constructor_calls : List ConstructorCall := []
  method_calls : List (String × List String) := []
  async_patterns : List AsyncPattern := []
  return_statements : List ReturnStatement := []
  cleanup_functions : List CleanupFunction := []
deriving Repr, DecidableEq

/-- The `parsed_code` dict handed to the tier validators.  `semantics` and
`framework` are the keys the validators themselves add; the parser never
sets them. -/
structure ParsedCode where
  success : Bool := true
  imports : List ImportRef := []
  classes : List ClassInfo := []
  functions : List FunctionInfo := []
  exports : List ExportRef := []
  semantics : Option Semantics := none
  framework : Option String := none
deriving Repr, DecidableEq

/-- A detailed class requirement (`required_structure['classes']` dict entry).
`.get('name')` may be `None`; `parent_class`/`methods` checks fire on key
presence. -/
structure ClassSpecD where
  name : Option String := none
  parent_class : Option String := none
  methods : Option (List String) := none
deriving Repr, DecidableEq

/-- A class requirement: either a bare name string or a detailed dict. -/
inductive ClassSpec where
  | nameOnly (name : String)
  | detailed (d : ClassSpecD)
deriving Repr, DecidableEq

/-- A detailed function requirement (`required_structure['functions']` dict
entry).  `has_prop_types`/`has_export` model the truthiness of
`func_spec.get(...)`. -/
structure FuncSpecD where
  name : Option String := none
  params : Option (List String) := none
  type : Option String := none
  has_prop_types : Bool := false
  has_export : Bool := false
deriving Repr, DecidableEq

/-- A function requirement: either a bare name string or a detailed dict. -/
inductive FuncSpec where
  | nameOnly (name : String)
  | detailed (d : FuncSpecD)
deriving Repr, DecidableEq

/-- `required_structure`: key absence is `none`. -/
structure RequiredStructure where
  classes : Option (List ClassSpec) := none
  functions : Option (List FuncSpec) := none
deriving Repr, DecidableEq

/-- A structured behavior pattern (a dict with a `type` discriminator).
The fields are the keys the embedded validators read with `.get`; `pyStr`
records Python's `str(pattern)` of the underlying dict, which the beginner
fallback uses when no `description` key is present. -/
structure StructuredPattern where
  type : Option String := none
  hook : Option String := none
  operation : Option String := none
  description : Option String := none
  conditional_type : Option String := none
  className : Option String := none
  context : Option String := none
  object : Option String := none
  method : Option String := none
  returns_required_properties : List String := []
  pyStr : String := ""
deriving Repr, DecidableEq

/-- A behavior pattern: legacy free text or a structured dict. -/
inductive Pattern where
  | str (s : String)
  | structured (p : StructuredPattern)
deriving Repr, DecidableEq

/-- The scoring weights of a validation spec (percent values). -/
structure Scoring where
  import_weight : ℚ := 15
  structure_weight : ℚ := 25
  behavior_weight : ℚ := 60
deriving Repr, DecidableEq

/-- The `validation_spec` dict built by `SubmissionService.validate_submission`.
`framework`/`difficulty` use `Option` because the validators read them with
`.get(_, 'unknown')` resp. `.get(_, 'beginner')`. -/
structure ValidationSpec where
  difficulty : Option String := none
  framework : Option String := none
  required_imports : List String := []
  required_structure : RequiredStructure := {}
  behavior_patterns : List Pattern := []
  scoring : Scoring := {}
  passing_score : ℚ := 70
deriving Repr, DecidableEq

/-- A component result, the `{'passed', 'score', 'details'}` dict every
one of the import/structure/behavior validators returns. -/
structure ComponentResult where
  passed : Bool
  score : ℚ
  details : List String
deriving Repr, DecidableEq

/-- The dict a tier validator's `validate` returns: one component result per
component, in the fixed order imports, structure, behavior. -/
structure TierResults where
  imports : ComponentResult
  structureRes : ComponentResult
  behavior : ComponentResult
deriving Repr, DecidableEq

/-- The `{'passed': bool, 'message': str}` dict returned by every structured
pattern validator. -/
structure PatternResult where
  passed : Bool
  message : String
deriving Repr, DecidableEq

/-! ## Score aggregation and verdict -/

/-- `EnhancedValidationEngine._calculate_overall_score`
(`tiered_validator.py` 4580-4605): sums `score * weight/100` and the raw
weights over the three components, returns 0 when the weight total is 0 and
otherwise renormalizes by the weight total.  The `component_name in results`
guard always holds because both tier validators return all three
components. -/
def calculate_overall_score (results : TierResults) (scoring : Scoring) : ℚ :=
  let components := [(results.imports.score, scoring.import_weight),
                     (results.structureRes.score, scoring.structure_weight),
                     (results.behavior.score, scoring.behavior_weight)]
  let total_score := components.foldl (fun acc c => acc + c.1 * (c.2 / 100)) 0
  let total_weight := components.foldl (fun acc c => acc + c.2) 0
  if total_weight = 0 then 0 else (total_score / total_weight) * 100

/-- The total-score formula the specification states
(`total_score = min(100, Σ weighted_score)` with
`weighted_score = raw_score * weight / 100`); it is also what the
never-invoked `ScoreAggregator.aggregate_scores` computes
(`scorers/aggregator.py` 37-40). -/
def claimed_total_score (results : TierResults) (scoring : Scoring) : ℚ :=
  min 100 (results.imports.score * scoring.import_weight / 100
    + results.structureRes.score * scoring.structure_weight / 100
    + results.behavior.score * scoring.behavior_weight / 100)

/-- The verdict thresholds of `SubmissionService.validate_submission`
(`submission_service.py` 140-145); `ScoreAggregator.aggregate_scores`
43-48 computes the same function. -/
def determine_verdict (overall_score passing_score : ℚ) : String :=
  if overall_score ≥ passing_score then "accepted"
  else if overall_score ≥ passing_score * 0.6 then "partially_passed"
  else "failed"

/-! ## Import extraction and matching (`BaseValidator`, `tiered_validator.py` 28-102) -/

/-- `BaseValidator._extract_all_imports` (28-56): flattens every import form
into one candidate list.  `type == 'import'` and `'require'` contribute the
module; `'from_import'` contributes `module.name`, `module` and `name`; any
other type contributes the module plus each specifier's `local` name and,
when truthy, its `imported` name. -/
def extract_all_imports (imports : List ImportRef) : List String :=
  imports.flatMap fun imp =>
    if imp.type = "import" then [imp.module]
    else if imp.type = "from_import" then
      [imp.module ++ "." ++ imp.name, imp.module, imp.name]
    else if imp.type = "require" then [imp.module]
    else
      imp.module :: imp.specifiers.flatMap fun spec =>
        spec.localName ::
          (if (spec.imported.getD "") ≠ "" then [spec.imported.getD ""] else [])

/-- `BaseValidator._is_import_match_enhanced` (58-78).  A relative required
module (leading dot) is matched through its normalized variants (dots
stripped, dots replaced by underscores, last dotted segment), each tested
as substring of or suffix of a found import; any other required module is
matched by substring overlap in either direction or by every dotted part
occurring in a found import. -/
def is_import_match_enhanced (required : String) (found_imports : List String) : Bool :=
  if str_starts_with required "." then
    let required_abs := lstrip_dots required
    let variations := [required_abs, replace_dots_underscore required_abs,
                       (py_split_dot required_abs).getLastD ""]
    found_imports.any fun found =>
      variations.any fun var => str_contains found var || str_ends_with found var
  else
    let required_parts := py_split_dot required
    found_imports.any fun found =>
      str_contains found required || str_contains required found ||
      required_parts.all fun part => str_contains found part

/-- `BaseValidator._validate_imports_common` (80-102): no requirements short
circuits to 100; otherwise the score is
`max(0, (required - missing)/required * 100)` over the unmatched
requirements. -/
def validate_imports_common (parsed_code : ParsedCode)
    (required_imports : List String) : ComponentResult :=
  if required_imports.isEmpty then
    ⟨true, 100, ["No imports required for validation"]⟩
  else
    let found_imports := extract_all_imports parsed_code.imports
    let missing := required_imports.filter
      (fun required => ¬ is_import_match_enhanced required found_imports)
    let score : ℚ :=
      if missing.isEmpty then 100
      else max 0 (((required_imports.length : ℚ) - missing.length)
                    / required_imports.length * 100)
    ⟨missing.isEmpty, score,
     if missing.isEmpty then ["All imports present"]
     else ["Missing imports: " ++ py_repr_list missing]⟩

/-! ## Structure check counting

Both structure validators run a sequence of checks, each incrementing
`total_checks` and conditionally `checks_passed`, while appending detail
strings.  A `Checks` value is one `(checks_passed, total_checks, details)`
accumulator; `Checks.add` is sequential accumulation, `chk` one counted
check, `note` detail-only output.
-/

/-- `(checks_passed, total_checks, details)` accumulator. -/
structure Checks where
  passed : Nat := 0
  total : Nat := 0
  details : List String := []
deriving Repr, DecidableEq

/-- Sequential accumulation of two check runs. -/
def Checks.add (a b : Checks) : Checks :=
  ⟨a.passed + b.passed, a.total + b.total, a.details ++ b.details⟩

/-- One counted check: `total_checks += 1`, `checks_passed += 1` when the
condition holds, and the matching detail line. -/
def chk (ok : Bool) (dpass dfail : String) : Checks :=
  ⟨if ok then 1 else 0, 1, [if ok then dpass else dfail]⟩

/-- Detail lines appended without touching the counters. -/
def note (ds : List String) : Checks :=
  ⟨0, 0, ds⟩

/-- Per-run invariant: no more checks pass than are counted. -/
def Checks.sound (c : Checks) : Prop := c.passed ≤ c.total

/-! ## Beginner structure validation (`BeginnerValidator._validate_structure_enhanced`, 128-289) -/

/-- The class-existence lookup (`next((cls for cls in classes if
cls['name'] == class_name), None)`); a `None` class name matches nothing. -/
def find_class (classes : List ClassInfo) (class_name : Option String) : Option ClassInfo :=
  classes.find? (fun c => class_name = some c.name)

/-- The function-existence lookup. -/
def find_function (functions : List FunctionInfo) (func_name : Option String) : Option FunctionInfo :=
  functions.find? (fun f => func_name = some f.name)

/-- The parent-class condition (line 166): the expected parent is an element
of `bases`, or a substring of some base. -/
def parent_class_match (expected : String) (bases : List String) : Bool :=
  bases.contains expected || bases.any (fun p => str_contains p expected)

/-- The beginner Django semantic note (184-192): detail lines only, no
counted checks.  The guard is Python's `framework == 'django' and
semantics`; the analyzers always return the full key-populated dict, so
the dict is truthy exactly when the `semantics` key is present (absence
yields the falsy `.get('semantics', \x7b\x7d)` default). -/
def beginner_django_class_note (framework : String) (semantics : Option Semantics)
    (class_name : String) (d : ClassSpecD) : Checks :=
  if framework = "django" && semantics.isSome then
    if str_ends_with class_name "Model" ||
        str_contains (d.parent_class.getD "") "Model" then
      if ¬ (semantics.getD {}).model_fields.isEmpty then
        note ["  ✓ Model has "
          ++ toString (semantics.getD {}).model_fields.length ++ " field(s)"]
      else
        note ["  ⚠ Model has no fields defined"]
    else note []
  else note []

/-- The beginner React semantic note (194-201): detail lines only; the
`semantics` guard tests dict truthiness, i.e. key presence. -/
def beginner_react_class_note (framework : String) (semantics : Option Semantics)
    (found : ClassInfo) (d : ClassSpecD) : Checks :=
  if framework = "react" && semantics.isSome then
    if str_contains (d.parent_class.getD "") "Component" then
      if (found.methods.find? (fun m => m.name = "render")).isSome then
        note ["  ✓ Component has render() method"]
      else note []
    else note []
  else note []

/-- Checks contributed by one class requirement (142-201).  The existence
check always counts; when the spec is a dict and the class was found, the
optional parent-class check and one check per required method follow, then
the framework notes. -/
def beginner_class_spec_checks (framework : String) (semantics : Option Semantics)
    (classes : List ClassInfo) (spec : ClassSpec) : Checks :=
  let class_name : Option String :=
    match spec with
    | .nameOnly s => some s
    | .detailed d => d.name
  match find_class classes class_name with
  | none =>
    chk false "" ("✗ Class \x27" ++ opt_str class_name ++ "\x27 not found")
  | some found =>
    let exist := chk true ("✓ Class \x27" ++ opt_str class_name ++ "\x27 found") ""
    match spec with
    | .nameOnly _ => exist
    | .detailed d =>
      let parent :=
        match d.parent_class with
        | none => note []
        | some expected =>
          chk (parent_class_match expected found.bases)
            ("  ✓ Inherits from \x27" ++ expected ++ "\x27")
            ("  ✗ Does not inherit from \x27" ++ expected ++ "\x27 (found: "
              ++ py_repr_list found.bases ++ ")")
      let methods :=
        match d.methods with
        | none => note []
        | some ms =>
          let class_methods := found.methods.map (fun m => m.name)
          ms.foldl (fun acc rm =>
            acc.add (chk (class_methods.contains rm)
              ("  ✓ Method \x27" ++ rm ++ "\x27 exists")
              ("  ✗ Method \x27" ++ rm ++ "\x27 missing"))) (note [])
      ((exist.add parent).add methods).add
        ((beginner_django_class_note framework semantics (opt_str class_name) d).add
          (beginner_react_class_note framework semantics found d))

/-- The PropTypes condition (253-260): Python tests
`'PropTypes' in str(parsed_code.get('imports', []))`.  The rendered list's
keys and punctuation never contain `PropTypes`, a `None` alias renders as
`None`, and `PropTypes` contains no quote characters, so the substring
occurs exactly when one of the stored string values — module, name, alias
or a specifier name — contains it. -/
def imports_repr_has_PropTypes (imports : List ImportRef) : Bool :=
  imports.any fun imp =>
    str_contains imp.type "PropTypes" || str_contains imp.module "PropTypes" ||
    str_contains imp.name "PropTypes" ||
    str_contains (imp.asname.getD "") "PropTypes" ||
    imp.specifiers.any fun sp =>
      str_contains sp.localName "PropTypes" ||
      str_contains (sp.imported.getD "") "PropTypes"

/-- The beginner React hook note inside the functional-component check
(243-248): detail only; the `semantics` guard is dict truthiness, i.e. key
presence.  CPython's `list(set(...))` order is unspecified; the embedding
keeps first occurrences, which no claim depends on. -/
def beginner_hook_note (framework : String) (semantics : Option Semantics) : Checks :=
  if framework = "react" && semantics.isSome then
    if ¬ (semantics.getD {}).hook_calls.isEmpty then
      let hook_names := ((semantics.getD {}).hook_calls.map (fun h => h.hook)).eraseDups
      note ["  ✓ Uses hooks: " ++ String.intercalate ", " (hook_names.take 3)]
    else note []
  else note []

/-- Checks contributed by one function requirement (206-270). -/
def beginner_func_spec_checks (framework : String) (semantics : Option Semantics)
    (parsed_code : ParsedCode) (spec : FuncSpec) : Checks :=
  let func_name : Option String :=
    match spec with
    | .nameOnly s => some s
    | .detailed d => d.name
  match find_function parsed_code.functions func_name with
  | none =>
    chk false "" ("✗ Function \x27" ++ opt_str func_name ++ "\x27 not found")
  | some found =>
    let exist := chk true ("✓ Function \x27" ++ opt_str func_name ++ "\x27 found") ""
    match spec with
    | .nameOnly _ => exist
    | .detailed d =>
      let params :=
        match d.params with
        | none => note []
        | some expected =>
          chk (expected.all (fun param => found.params.contains param))
            ("  ✓ Has correct parameters: " ++ py_repr_list expected)
            ("  ✗ Parameter mismatch (expected: " ++ py_repr_list expected
              ++ ", got: " ++ py_repr_list found.params ++ ")")
      -- 236-250: `func_name[0].isupper()`; `func_name` is non-empty for every
      -- name the parsers produce (CPython would raise on an empty name).
      let component :=
        if d.type = some "functional_component" then
          if ((opt_str func_name).toList.headD ' ').isUpper then
            (chk true "  ✓ Follows React component naming convention" "").add
              (beginner_hook_note framework semantics)
          else
            chk false "" "  ✗ Component name should start with uppercase"
        else note []
      let prop_types_chk :=
        if d.has_prop_types then
          chk (imports_repr_has_PropTypes parsed_code.imports)
            "  ✓ PropTypes imported" "  ⚠ PropTypes not imported"
        else note []
      let export_chk :=
        if d.has_export then
          chk (parsed_code.exports.any (fun exp => exp.declaration = func_name))
            "  ✓ Function is exported" "  ✗ Function is not exported"
        else note []
      (((exist.add params).add component).add prop_types_chk).add export_chk

/-- The accumulated checks of `BeginnerValidator._validate_structure_enhanced`
(132-270): class requirements first, then function requirements.  The
`'classes' in required_structure and required_structure['classes']` guard
skips absent or empty lists. -/
def beginner_structure_checks (parsed_code : ParsedCode)
    (required_structure : RequiredStructure) : Checks :=
  let framework := parsed_code.framework.getD "unknown"
  let semantics := parsed_code.semantics
  let class_part :=
    match required_structure.classes with
    | some l =>
      if l.isEmpty then note []
      else l.foldl (fun acc s =>
        acc.add (beginner_class_spec_checks framework semantics parsed_code.classes s))
        (note [])
    | none => note []
  let func_part :=
    match required_structure.functions with
    | some l =>
      if l.isEmpty then note []
      else l.foldl (fun acc s =>
        acc.add (beginner_func_spec_checks framework semantics parsed_code s)) (note [])
    | none => note []
  class_part.add func_part

/-- `BeginnerValidator._validate_structure_enhanced` (128-289): zero counted
checks yield an explicit 0 with a diagnostic, otherwise
`checks_passed / total_checks * 100`. -/
def validate_structure_enhanced_beginner (parsed_code : ParsedCode)
    (required_structure : RequiredStructure) : ComponentResult :=
  let c := beginner_structure_checks parsed_code required_structure
  if c.total = 0 then
    ⟨false, 0, ["⚠️ No structure validation performed - check validation spec format"]⟩
  else
    ⟨c.passed = c.total, (c.passed : ℚ) / c.total * 100, c.details⟩

/-! ## Keyword matching and beginner behavior validation -/

/-- The keyword fallback the source inlines three times
(`_validate_string_pattern_enhanced` 349-352, `_validate_structured_pattern_basic`
476-477, `_validate_legacy_pattern` 4501-4502): words of the text longer
than three characters, lowercased, any of them occurring in the lowercased
code. -/
def keyword_match (text code : String) : Bool :=
  let keywords := (py_split_ws text).filter (fun kw => kw.length > 3)
  keywords.any (fun keyword => str_contains (py_lower code) (py_lower keyword))

/-- `BeginnerValidator._validate_string_pattern_enhanced` (341-400):
keyword prescreen, then `if not semantics: return True` — the dict is falsy
exactly when the `semantics` key was absent, since the analyzers return
key-populated dicts — then framework-aware refinements. -/
def validate_string_pattern_enhanced (pattern code : String)
    (semantics : Option Semantics) (framework : String) : Bool :=
  let pattern_lower := py_lower pattern
  if ¬ keyword_match pattern code then false
  else if semantics.isNone then true
  else
    let sem := semantics.getD {}
    if framework = "django" then
      if str_contains pattern_lower "field" &&
          ["char", "integer", "foreign", "boolean", "date"].any
            (fun field_type => str_contains pattern_lower field_type) then
        ¬ sem.model_fields.isEmpty
      else if str_contains pattern_lower "filter" ||
          str_contains pattern_lower "queryset" then
        sem.queryset_operations.contains "filter" ||
          sem.queryset_operations.contains "all"
      else if str_contains pattern_lower "serializer" then
        ¬ sem.serializer_classes.isEmpty
      else true
    else if framework = "react" then
      if str_contains pattern_lower "usestate" then
        sem.hook_calls.any (fun h => h.hook = "useState")
      else if str_contains pattern_lower "useeffect" then
        sem.hook_calls.any (fun h => h.hook = "useEffect")
      else if str_contains pattern_lower "onclick" ||
          str_contains pattern_lower "onchange" ||
          str_contains pattern_lower "event" then
        ¬ sem.event_handlers.isEmpty
      else if str_contains pattern_lower "jsx" ||
          str_contains pattern_lower "return" then
        ¬ sem.jsx_elements.isEmpty
      else true
    else true

/-- `BeginnerValidator._validate_structured_pattern_basic` (402-480): a
small per-framework dispatch; every pattern type outside the recognized
sets falls through to keyword matching on the pattern's description
(474-480), `str(pattern)` when no description key is present. -/
def validate_structured_pattern_basic (pattern : StructuredPattern)
    (semantics : Semantics) (code : String) (framework : String) : PatternResult :=
  let fallback : PatternResult :=
    let description := pattern.description.getD pattern.pyStr
    ⟨keyword_match description code, description⟩
  if framework = "react" then
    if pattern.type = some "hook_call" then
      let matching := semantics.hook_calls.filter (fun h => pattern.hook = some h.hook)
      if ¬ matching.isEmpty then ⟨true, opt_str pattern.hook ++ " used"⟩
      else ⟨false, opt_str pattern.hook ++ " not found"⟩
    else if pattern.type = some "state_management" then
      if ¬ semantics.state_declarations.isEmpty then ⟨true, "State management found"⟩
      else ⟨false, "No state management"⟩
    else if pattern.type = some "event_handler" then
      if ¬ semantics.event_handlers.isEmpty then ⟨true, "Event handlers found"⟩
      else ⟨false, "No event handlers"⟩
    else if pattern.type = some "conditional_rendering" then
      if str_contains code "?" && str_contains code ":" then
        ⟨true, "Conditional rendering found"⟩
      else if str_contains code "&&" then ⟨true, "Conditional rendering found"⟩
      else ⟨false, "No conditional rendering"⟩
    else fallback
  else if framework = "django" then
    if pattern.type = some "model_field" then
      if ¬ semantics.model_fields.isEmpty then
        ⟨true, "Model fields found (" ++ toString semantics.model_fields.length ++ ")"⟩
      else ⟨false, "No model fields"⟩
    else if pattern.type = some "queryset_operation" then
      let operation := pattern.operation.getD "any"
      if operation = "any" then
        if ¬ semantics.queryset_operations.isEmpty then
          ⟨true, "Queryset operations: "
            ++ String.intercalate ", " (semantics.queryset_operations.take 3)⟩
        else ⟨false, "No queryset operations"⟩
      else
        if semantics.queryset_operations.contains operation then
          ⟨true, "Queryset ." ++ operation ++ "() found"⟩
        else ⟨false, "Queryset ." ++ operation ++ "() not found"⟩
    else if pattern.type = some "serializer" then
      if ¬ semantics.serializer_classes.isEmpty then ⟨true, "Serializer found"⟩
      else ⟨false, "No serializer"⟩
    else fallback
  else fallback

/-- One iteration of the beginner behavior loop (305-331): a legacy string
pattern goes through enhanced keyword matching; a dict with a truthy
`type` goes through the basic structured dispatch; a dict without one falls
back to keyword matching on its `str()`.  Returns whether the pattern
matched and the detail line appended. -/
def beginner_behavior_step (parsed_framework : String) (semantics : Option Semantics)
    (code : String) (pattern : Pattern) : Bool × String :=
  match pattern with
  | .str s =>
    let r := validate_string_pattern_enhanced s code semantics parsed_framework
    (r, (if r then "✓ " else "✗ ") ++ s)
  | .structured p =>
    if (p.type.getD "") ≠ "" then
      let result := validate_structured_pattern_basic p (semantics.getD {}) code
        parsed_framework
      (result.passed, (if result.passed then "✓ " else "✗ ") ++ result.message)
    else
      let r := keyword_match p.pyStr code
      (r, (if r then "✓ " else "✗ ") ++ p.pyStr)

/-- `BeginnerValidator._validate_behavior_enhanced` (291-339). -/
def validate_behavior_enhanced_beginner (parsed_code : ParsedCode)
    (behavior_patterns : List Pattern) (code : String) : ComponentResult :=
  if behavior_patterns.isEmpty then
    ⟨true, 100, ["No behavior patterns required"]⟩
  else
    let framework := parsed_code.framework.getD "unknown"
    let semantics := parsed_code.semantics
    let steps := behavior_patterns.map (beginner_behavior_step framework semantics code)
    let matched := (steps.filter (fun st => st.1)).length
    let total := behavior_patterns.length
    ⟨matched = total, (matched : ℚ) / total * 100, steps.map (fun st => st.2)⟩

/-! ## Intermediate structure validation
(`EnhancedIntermediateValidator._validate_structure_enhanced`, 3087-3169) -/

/-- `_validate_django_class` (3171-3187): detail lines only. -/
def intermediate_django_class_note (d : ClassSpecD) (semantics : Semantics) : Checks :=
  let class_name := d.name.getD ""
  if str_ends_with class_name "Model" ||
      str_contains (d.parent_class.getD "") "Model" then
    if ¬ semantics.model_fields.isEmpty then
      note ["  ✓ Model has " ++ toString semantics.model_fields.length ++ " fields"]
    else note ["  ⚠️ Model has no fields defined"]
  else if ["View", "ListView", "DetailView"].any
      (fun view_base => str_contains (d.parent_class.getD "") view_base) then
    if ¬ semantics.view_methods.isEmpty then
      note ["  ✓ View has methods: " ++ String.intercalate ", " semantics.view_methods]
    else note []
  else note []

/-- `_validate_react_class` (3189-3204): detail lines only. -/
def intermediate_react_class_note (d : ClassSpecD) (found : ClassInfo)
    (semantics : Semantics) : Checks :=
  if str_contains (d.parent_class.getD "") "Component" then
    let first :=
      if semantics.component_types.class_components > 0 then
        note ["  ✓ React class component"]
      else note []
    let lifecycle := ["componentDidMount", "componentDidUpdate",
                      "componentWillUnmount", "render"]
    let second :=
      if found.methods.any (fun m => lifecycle.contains m.name) then
        note ["  ✓ Has lifecycle methods"]
      else note []
    first.add second
  else note []

/-- `_validate_django_function` (3206-3220): detail lines only. -/
def intermediate_django_func_note (d : FuncSpecD) (semantics : Semantics) : Checks :=
  let func_name := py_lower (d.name.getD "")
  let first :=
    if ["view", "handler"].any (fun term => str_contains func_name term) then
      if ¬ semantics.view_decorators.isEmpty then
        note ["  ✓ View function with decorators: "
          ++ String.intercalate ", " semantics.view_decorators]
      else note []
    else note []
  let second :=
    if str_contains func_name "permission" || str_contains func_name "role" then
      if ¬ semantics.permission_checks.isEmpty then
        note ["  ✓ Function performs permission checks"]
      else note []
    else note []
  first.add second

/-- `_validate_react_function` (3222-3236): detail lines only.
The `elif` tests `func_name[0].isupper()`; names are non-empty for every
spec the code reaches here (CPython would raise otherwise). -/
def intermediate_react_func_note (d : FuncSpecD) (semantics : Semantics) : Checks :=
  let func_name := d.name.getD ""
  if str_starts_with func_name "use" then
    if semantics.custom_hooks.any (fun hook => hook.name = func_name) then
      note ["  ✓ Custom hook implementation"]
    else note []
  else if (func_name.toList.headD ' ').isUpper || str_contains func_name "Component" then
    if ¬ semantics.hook_calls.isEmpty then
      note ["  ✓ Function uses React hooks"]
    else note []
  else note []

/-- Checks contributed by one class requirement in the intermediate tier
(3097-3120): non-dict or nameless specs are skipped entirely; the existence
check counts, framework helpers only append details. -/
def intermediate_class_spec_checks (framework : String) (semantics : Semantics)
    (classes : List ClassInfo) (spec : ClassSpec) : Checks :=
  match spec with
  | .nameOnly _ => note []
  | .detailed d =>
    match d.name with
    | none => note []
    | some _ =>
      match find_class classes d.name with
      | none => chk false "" ("✗ Class \x27" ++ opt_str d.name ++ "\x27 not found")
      | some found =>
        let exist := chk true ("✓ Class \x27" ++ opt_str d.name ++ "\x27 found") ""
        let fw_note :=
          if framework = "django" then intermediate_django_class_note d semantics
          else if framework = "react" then
            intermediate_react_class_note d found semantics
          else note []
        exist.add fw_note

/-- Checks contributed by one function requirement in the intermediate tier
(3123-3158): existence check, optional parameter-subset check
(`set(expected).issubset(set(actual))`), then framework detail helpers. -/
def intermediate_func_spec_checks (framework : String) (semantics : Semantics)
    (functions : List FunctionInfo) (spec : FuncSpec) : Checks :=
  match spec with
  | .nameOnly _ => note []
  | .detailed d =>
    match d.name with
    | none => note []
    | some _ =>
      match find_function functions d.name with
      | none => chk false "" ("✗ Function \x27" ++ opt_str d.name ++ "\x27 not found")
      | some found =>
        let exist := chk true ("✓ Function \x27" ++ opt_str d.name ++ "\x27 found") ""
        let params :=
          match d.params with
          | none => note []
          | some expected =>
            chk (expected.all (fun p => found.params.contains p))
              "  ✓ Parameters correct" "  ✗ Parameters mismatch"
        let fw_note :=
          if framework = "django" then intermediate_django_func_note d semantics
          else if framework = "react" then intermediate_react_func_note d semantics
          else note []
        (exist.add params).add fw_note

/-- The accumulated checks of the intermediate structure validator
(3089-3158).  Unlike the beginner tier, `'classes' in required_structure`
alone enables the loop (no truthiness test). -/
def intermediate_structure_checks (parsed_code : ParsedCode)
    (required_structure : RequiredStructure) : Checks :=
  let framework := parsed_code.framework.getD "unknown"
  let semantics := parsed_code.semantics.getD {}
  let class_part :=
    match required_structure.classes with
    | some l => l.foldl (fun (acc : Checks) s =>
        acc.add (intermediate_class_spec_checks framework semantics parsed_code.classes s))
        (note [])
    | none => note []
  let func_part :=
    match required_structure.functions with
    | some l => l.foldl (fun (acc : Checks) s =>
        acc.add (intermediate_func_spec_checks framework semantics parsed_code.functions s))
        (note [])
    | none => note []
  class_part.add func_part

/-- `EnhancedIntermediateValidator._validate_structure_enhanced` (3087-3169). -/
def validate_structure_enhanced_intermediate (parsed_code : ParsedCode)
    (required_structure : RequiredStructure) : ComponentResult :=
  let c := intermediate_structure_checks parsed_code required_structure
  if c.total = 0 then ⟨false, 0, ["⚠️ No structure validation"]⟩
  else ⟨c.passed = c.total, (c.passed : ℚ) / c.total * 100, c.details⟩

/-! ## Intermediate structured-pattern dispatch
(`EnhancedIntermediateValidator`, 3272-3363 and 4404-4512)

The per-type Django/React validator functions (thousands of lines of
heuristics) are irrelevant to the claims under verification, which only
concern how patterns are routed; they enter the embedding as an explicit
handler table indexed by the dispatched type string, so every theorem below
holds for arbitrary handler behavior.  The five generic validators and the
inline `prop_types` branch are embedded in full.
-/

/-- The handler a recognized `(framework, type)` pair dispatches to:
`(pattern, semantics, code) → result`. -/
def PatternHandler := StructuredPattern → Semantics → String → PatternResult

/-- The framework-specific dispatch tables (one entry per recognized type
string, looked up by the dispatched type). -/
structure PatternHandlers where
  django : String → PatternHandler
  react : String → PatternHandler

/-- The `type` strings `_validate_django_pattern` (3288-3318) recognizes. -/
def django_pattern_types : List String :=
  ["model_field", "view_method", "permission_check", "middleware", "serializer",
   "queryset_operation", "decorator", "authentication", "url_pattern",
   "template_usage", "form_validation", "signal_handler", "test_case"]

/-- The `type` strings `_validate_react_pattern` (3320-3363) dispatches to a
dedicated validator function, `default_props` (3353-3354) included; the
inline `ternary_operator` and `prop_types` branches are embedded
separately. -/
def react_pattern_types : List String :=
  ["hook_call", "component_props", "state_management", "effect_usage",
   "event_handler", "form_handling", "routing", "api_call", "memoization",
   "custom_hook", "context_usage", "ref_usage", "conditional_rendering",
   "default_props"]

/-- The `type` strings `_validate_generic_pattern` (4404-4417) recognizes. -/
def generic_pattern_types : List String :=
  ["constructor_call", "method_call", "async_pattern", "return_statement",
   "cleanup_function"]

/-- `_validate_constructor_call` (4419-4437). -/
def validate_constructor_call (pattern : StructuredPattern)
    (semantics : Semantics) : PatternResult :=
  let matching := semantics.constructor_calls.filter
    (fun c => pattern.className = some c.className)
  if matching.isEmpty then
    ⟨false, "new " ++ opt_str pattern.className ++ "() not found"⟩
  else if pattern.context = some "inside_function" then
    if ¬ (matching.filter (fun c => c.context = "inside_function")).isEmpty then
      ⟨true, "new " ++ opt_str pattern.className ++ "() found inside function"⟩
    else ⟨false, "new " ++ opt_str pattern.className ++ "() not inside function"⟩
  else ⟨true, "new " ++ opt_str pattern.className ++ "() found"⟩

/-- `_validate_method_call` (4439-4449): `obj in method_calls` then
`method in method_calls[obj]`. -/
def validate_method_call (pattern : StructuredPattern)
    (semantics : Semantics) : PatternResult :=
  let hit :=
    match semantics.method_calls.find? (fun kv => pattern.object = some kv.1) with
    | some kv =>
      match pattern.method with
      | some m => kv.2.contains m
      | none => false
    | none => false
  if hit then
    ⟨true, opt_str pattern.object ++ "." ++ opt_str pattern.method ++ "() call found"⟩
  else
    ⟨false, opt_str pattern.object ++ "." ++ opt_str pattern.method ++ "() call not found"⟩

/-- `_validate_async_pattern` (4451-4467). -/
def validate_async_pattern (pattern : StructuredPattern)
    (semantics : Semantics) : PatternResult :=
  if semantics.async_patterns.isEmpty then ⟨false, "No async functions found"⟩
  else if pattern.context = some "fetch_call" then
    if ¬ (semantics.async_patterns.filter (fun p => p.uses_fetch)).isEmpty then
      ⟨true, "async/await with fetch found"⟩
    else ⟨false, "async function exists but doesn\x27t use fetch"⟩
  else ⟨true, "async functions found: " ++ toString semantics.async_patterns.length⟩

/-- `_validate_return_statement` (4469-4483). -/
def validate_return_statement (pattern : StructuredPattern)
    (semantics : Semantics) : PatternResult :=
  let required_props := pattern.returns_required_properties
  if semantics.return_statements.isEmpty then ⟨false, "No return statement found"⟩
  else if semantics.return_statements.any
      (fun ret => required_props.all (fun prop => ret.properties.contains prop)) then
    ⟨true, "Return contains: " ++ String.intercalate ", " required_props⟩
  else ⟨false, "Return missing: " ++ String.intercalate ", " required_props⟩

/-- `_validate_cleanup_function` (4485-4497). -/
def validate_cleanup_function (semantics : Semantics) : PatternResult :=
  if semantics.cleanup_functions.isEmpty then ⟨false, "useEffect not found"⟩
  else if ¬ (semantics.cleanup_functions.filter (fun c => c.has_cleanup)).isEmpty then
    ⟨true, "useEffect returns cleanup function"⟩
  else ⟨false, "useEffect doesn\x27t return cleanup function"⟩

/-- `_validate_generic_pattern` (4404-4417): five recognized types, every
other type fails closed with the diagnostic
`Unknown pattern type: <type>` (`None` rendered Python-style). -/
def validate_generic_pattern (pattern_type : Option String)
    (pattern : StructuredPattern) (semantics : Semantics) : PatternResult :=
  if pattern_type = some "constructor_call" then
    validate_constructor_call pattern semantics
  else if pattern_type = some "method_call" then
    validate_method_call pattern semantics
  else if pattern_type = some "async_pattern" then
    validate_async_pattern pattern semantics
  else if pattern_type = some "return_statement" then
    validate_return_statement pattern semantics
  else if pattern_type = some "cleanup_function" then
    validate_cleanup_function semantics
  else ⟨false, "Unknown pattern type: " ++ opt_str pattern_type⟩

/-- `_validate_django_pattern` (3288-3318): thirteen recognized types go to
their dedicated validators, everything else to the generic dispatch. -/
def validate_django_pattern (H : PatternHandlers) (pattern_type : Option String)
    (pattern : StructuredPattern) (semantics : Semantics) (code : String) : PatternResult :=
  match pattern_type with
  | some t =>
    if django_pattern_types.contains t then H.django t pattern semantics code
    else validate_generic_pattern pattern_type pattern semantics
  | none => validate_generic_pattern none pattern semantics

/-- `_validate_react_pattern` (3320-3363): dedicated validators for the
recognized types, an alias branch for `ternary_operator` (which sets
`conditional_type` to `ternary` before re-dispatching to the
conditional-rendering validator), the inline `prop_types` check, and the
generic dispatch for everything else. -/
def validate_react_pattern (H : PatternHandlers) (pattern_type : Option String)
    (pattern : StructuredPattern) (semantics : Semantics) (code : String) : PatternResult :=
  match pattern_type with
  | some t =>
    if react_pattern_types.contains t then H.react t pattern semantics code
    else if t = "ternary_operator" then
      H.react "conditional_rendering"
        { pattern with conditional_type := some "ternary" } semantics code
    else if t = "prop_types" then
      let proptype_defs := semantics.component_props.filter
        (fun p => p.type = some "propTypes")
      if ¬ proptype_defs.isEmpty then
        ⟨true, "PropTypes defined for " ++ toString proptype_defs.length ++ " components"⟩
      else ⟨false, "PropTypes not found"⟩
    else validate_generic_pattern pattern_type pattern semantics
  | none => validate_generic_pattern none pattern semantics

/-- `_validate_express_pattern` (4508-4509): unconditional placeholder. -/
def validate_express_pattern (pattern_type : Option String) : PatternResult :=
  ⟨false, "Express pattern validation not implemented: " ++ opt_str pattern_type⟩

/-- `_validate_angular_pattern` (4511-4512): unconditional placeholder. -/
def validate_angular_pattern (pattern_type : Option String) : PatternResult :=
  ⟨false, "Angular pattern validation not implemented: " ++ opt_str pattern_type⟩

/-- `_validate_structured_pattern` (3272-3286): framework-keyed dispatch;
frameworks outside django/react/express/angular (including `unknown` and
`nodejs`) go straight to the generic dispatch. -/
def validate_structured_pattern (H : PatternHandlers) (pattern : StructuredPattern)
    (semantics : Semantics) (code : String) (framework : String) : PatternResult :=
  if framework = "django" then
    validate_django_pattern H pattern.type pattern semantics code
  else if framework = "react" then
    validate_react_pattern H pattern.type pattern semantics code
  else if framework = "express" then validate_express_pattern pattern.type
  else if framework = "angular" then validate_angular_pattern pattern.type
  else validate_generic_pattern pattern.type pattern semantics

/-- `_validate_legacy_pattern` (4499-4505). -/
def validate_legacy_pattern (pattern code : String) : PatternResult :=
  ⟨keyword_match pattern code, pattern⟩

/-- One iteration of the intermediate behavior loop (3250-3262). -/
def intermediate_behavior_step (H : PatternHandlers) (semantics : Semantics)
    (code framework : String) (pattern : Pattern) : Bool × String :=
  let result :=
    match pattern with
    | .str s => validate_legacy_pattern s code
    | .structured p => validate_structured_pattern H p semantics code framework
  (result.passed, (if result.passed then "✓ " else "✗ ") ++ result.message)

/-- `EnhancedIntermediateValidator._validate_behavior_enhanced` (3238-3270). -/
def validate_behavior_enhanced_intermediate (H : PatternHandlers)
    (parsed_code : ParsedCode) (behavior_patterns : List Pattern)
    (code framework : String) : ComponentResult :=
  if behavior_patterns.isEmpty then
    ⟨true, 100, ["No behavior patterns required"]⟩
  else
    let semantics := parsed_code.semantics.getD {}
    let steps := behavior_patterns.map
      (intermediate_behavior_step H semantics code framework)
    let matched := (steps.filter (fun st => st.1)).length
    let total := behavior_patterns.length
    ⟨matched = total, (matched : ℚ) / total * 100, steps.map (fun st => st.2)⟩

/-! ## Framework analyzer factory and tier `validate`
(`FrameworkAnalyzerFactory` 502-521, `BaseSemanticAnalyzer` 524-530,
`BeginnerValidator.validate` 111-126,
`EnhancedIntermediateValidator.validate` 3070-3085) -/

/-- A Python exception escaping the embedded code. -/
inductive PyError where
  | typeError (msg : String)
deriving Repr, DecidableEq

/-- The concrete analyzers the factory can return.  Their `analyze` bodies
(thousands of lines of regex extractors) are irrelevant to the claims under
verification; theorems quantify over an arbitrary `analyze` function. -/
inductive AnalyzerKind where
  | django | react | express | angular | nodejs
deriving Repr, DecidableEq

/-- `FrameworkAnalyzerFactory.create_analyzer` (502-521).  The five
registered frameworks (after lowercasing) get their concrete analyzer.  The
fallback branch executes `return BaseSemanticAnalyzer()`, and
`BaseSemanticAnalyzer` derives `ABC` with the abstract method `analyze`
(524-530), so CPython raises `TypeError` at the instantiation instead of
returning an analyzer. -/
def create_analyzer (framework : String) : Except PyError AnalyzerKind :=
  let framework_lower := py_lower framework
  if framework_lower = "django" then .ok .django
  else if framework_lower = "react" then .ok .react
  else if framework_lower = "express" then .ok .express
  else if framework_lower = "angular" then .ok .angular
  else if framework_lower = "nodejs" then .ok .nodejs
  else .error (.typeError
    "Can\x27t instantiate abstract class BaseSemanticAnalyzer with abstract method analyze")

/-- `BeginnerValidator.validate` (111-126).  For a framework other than the
literal `unknown` it creates the analyzer, stores the semantic profile and
the framework into `parsed_code`, then runs the three component validators;
for `unknown` it skips the analysis entirely.  Mutation of the
`parsed_code` dict is modelled by returning the updated record next to the
result dict; an exception from the factory propagates. -/
def beginner_validate (analyze : AnalyzerKind → String → ParsedCode → Semantics)
    (parsed_code : ParsedCode) (validation_spec : ValidationSpec) (code : String) :
    Except PyError (TierResults × ParsedCode) := do
  let framework := validation_spec.framework.getD "unknown"
  let parsed_code ←
    if framework ≠ "unknown" then do
      let kind ← create_analyzer framework
      let semantics := analyze kind code parsed_code
      pure { parsed_code with semantics := some semantics, framework := some framework }
    else pure parsed_code
  pure (⟨validate_imports_common parsed_code validation_spec.required_imports,
         validate_structure_enhanced_beginner parsed_code validation_spec.required_structure,
         validate_behavior_enhanced_beginner parsed_code validation_spec.behavior_patterns code⟩,
        parsed_code)

/-- `EnhancedIntermediateValidator.validate` (3070-3085): unconditionally
creates the analyzer for `validation_spec.get('framework', 'unknown')` and
stores profile and framework before running the component validators. -/
def intermediate_validate (analyze : AnalyzerKind → String → ParsedCode → Semantics)
    (H : PatternHandlers) (parsed_code : ParsedCode)
    (validation_spec : ValidationSpec) (code : String) :
    Except PyError (TierResults × ParsedCode) := do
  let framework := validation_spec.framework.getD "unknown"
  let kind ← create_analyzer framework
  let semantics := analyze kind code parsed_code
  let parsed_code :=
    { parsed_code with semantics := some semantics, framework := some framework }
  pure (⟨validate_imports_common parsed_code validation_spec.required_imports,
         validate_structure_enhanced_intermediate parsed_code validation_spec.required_structure,
         validate_behavior_enhanced_intermediate H parsed_code
           validation_spec.behavior_patterns code framework⟩,
        parsed_code)

/-! ## External JS/TS parser invocation
(`ParserService._parse_javascript_with_node`, `parser_service.py` 160-375)

The Python function writes the code to a `NamedTemporaryFile(delete=False)`
and spawns `node -e <script>` with a 10 second bound.  The only deletion of
the temporary file anywhere in the function is the `fs.unlinkSync` inside
the embedded Node script's `finally` block (314-320); the Python code has
no `finally` and no `os.unlink` on any of its exception paths.  The
embedding enumerates the exit paths of the invocation and records whether
the deletion statement executed.
-/

/-- How one invocation of the Node subprocess can end. -/
inductive NodeInvocation where
  /-- node ran the embedded script to completion (its `finally` executed);
  `parse_success` is the flag inside the JSON the script printed —
  `false` when esprima rejected the code (script lines 308-313). -/
  | scriptCompleted (parse_success : Bool)
  /-- node started but the script died before entering its `try` block
  (e.g. `require` of esprima fails), exiting non-zero: the Python
  `returncode != 0` branch (335-342). -/
  | scriptAborted
  /-- the `node` binary was not found: `subprocess.run` raises
  `FileNotFoundError`, handled at 344-351. -/
  | spawnFailure
  /-- the 10 second bound elapsed while the script was still inside its
  `try` block: `subprocess.TimeoutExpired`, handled at 352-359. -/
  | timeoutExpired
deriving Repr, DecidableEq

/-- The observable outcome of `_parse_javascript_with_node`: the `success`
flag of the returned dict, and whether the temporary file created at
165-167 was deleted by the time the function returned. -/
structure NodeParseRun where
  result_success : Bool
  temp_file_deleted : Bool
deriving Repr, DecidableEq

/-- `ParserService._parse_javascript_with_node` (160-375), abstracted over
the subprocess outcome.  The temporary file is deleted exactly when the
script's `finally` ran, i.e. when the script ran to completion; every
Python-side exception branch returns an error dict without touching the
file. -/
def parse_javascript_with_node : NodeInvocation → NodeParseRun
  | .scriptCompleted parse_success => ⟨parse_success, true⟩
  | .scriptAborted => ⟨false, false⟩
  | .spawnFailure => ⟨false, false⟩
  | .timeoutExpired => ⟨false, false⟩

/-! ## Feedback generation (`feedback_generator.py`) and the parse-failure
outcome (`submission_service.py` 68-89) -/

/-- One feedback message
(`{'type', 'message', 'line', 'column'}`). -/
structure FeedbackItem where
  type : String
  message : String
  line : Option Nat := none
  column : Option Nat := none
deriving Repr, DecidableEq

/-- The `semantic` component of the feedback input (Pro level). -/
structure SemanticResult where
  patterns_checked : List String := []
  details : List String := []
  score : ℚ := 0
deriving Repr, DecidableEq

/-- The `validation_results` dict handed to
`FeedbackGenerator.generate_feedback`.  `Option` component fields model the
truthiness tests on possibly-empty dicts; `parse_error` is always a string
in the dicts the orchestrator builds, so the `getD` rendering coincides
with Python's `.get(_, 'Unknown syntax error')`. -/
structure FeedbackInput where
  parse_success : Bool := true
  parse_error : Option String := none
  error_line : Option Nat := none
  error_offset : Option Nat := none
  imports : Option ComponentResult := none
  structureRes : Option ComponentResult := none
  behavior : Option ComponentResult := none
  semantic : Option SemanticResult := none
  verdict : Option String := none
  total_score : ℚ := 0
  difficulty : Option String := none
deriving Repr, DecidableEq

/-- Python `s.strip()`. -/
def py_strip (s : String) : String :=
  ⟨((s.toList.dropWhile Char.isWhitespace).reverse.dropWhile Char.isWhitespace).reverse⟩

/-- Python `s.capitalize()`. -/
def py_capitalize (s : String) : String :=
  match s.toList with
  | [] => ""
  | c :: rest => ⟨c.toUpper :: rest.map Char.toLower⟩

/-- Python's `f"\x7bq:.1f\x7d"` for the non-negative scores that occur here
(ties round as `round` does; the exact tie digit is immaterial to every
property proved about the feedback). -/
def fmt1 (q : ℚ) : String :=
  let t := (round (q * 10) : ℤ).toNat
  toString (t / 10) ++ "." ++ toString (t % 10)

/-- `FeedbackGenerator._is_old_format_error` (129-138). -/
def is_old_format_error (structure_result : Option ComponentResult) : Bool :=
  let details := (structure_result.map (fun r => r.details)).getD []
  match details with
  | [] => false
  | first_detail :: _ =>
    str_contains first_detail "PROBLEM DEFINITION ERROR" ||
    str_contains first_detail "outdated validation format"

/-- `FeedbackGenerator._add_old_format_warning` (140-181). -/
def old_format_warning (structure_result : Option ComponentResult) : List FeedbackItem :=
  let details := (structure_result.map (fun r => r.details)).getD []
  [⟨"error", "🚨 PROBLEM CONFIGURATION ERROR", none, none⟩,
   ⟨"warning",
    "⚠️ This problem uses an outdated validation format and cannot be graded.",
    none, none⟩]
  ++ (details.filter (fun d => str_contains d "Expected format")).map
       (fun d => ⟨"info", "ℹ️ " ++ d, none, none⟩)
  ++ [⟨"info", "💡 What to do: Contact the course administrator to update this problem.",
      none, none⟩,
      ⟨"info",
       "📚 For admins: Update the validation_spec to use \"classes\": [\x7b\"name\": \"...\", \"methods\": [...]\x7d] format",
       none, none⟩]

/-- The display type `_add_component_feedback` infers for one detail line
(203-216). -/
def detail_msg_type (detail : String) : String :=
  if str_starts_with detail "✓" ||
      (str_contains (py_lower detail) "found" && str_contains detail "✓") then
    "success"
  else if str_starts_with detail "✗" || str_contains (py_lower detail) "missing" ||
      str_contains (py_lower detail) "not found" then
    "error"
  else if str_starts_with detail "⚠️" || str_starts_with detail "ℹ️" then "info"
  else "info"

/-- The indent `_add_component_feedback` prepends (218-223); the `elif` for
four spaces is unreachable because four spaces start with two. -/
def detail_indent (detail : String) : String :=
  if str_starts_with detail "  " then "  "
  else if str_starts_with detail "    " then "    "
  else ""

/-- `FeedbackGenerator._add_component_feedback` (183-230): a header line
followed by one typed item per detail string. -/
def add_component_feedback (component_result : Option ComponentResult)
    (component_name icon : String) : List FeedbackItem :=
  match component_result with
  | none => []
  | some r =>
    let status_icon := if r.passed then "✅" else "⚠️"
    ⟨if r.passed then "info" else "warning",
     icon ++ " " ++ component_name ++ ": " ++ status_icon ++ " Score: "
       ++ fmt1 r.score ++ "/100", none, none⟩
    :: r.details.map (fun detail =>
        ⟨detail_msg_type detail, detail_indent detail ++ py_strip detail, none, none⟩)

/-- `FeedbackGenerator._add_semantic_feedback` (232-276). -/
def add_semantic_feedback (s : SemanticResult) : List FeedbackItem :=
  [⟨"info", "🎯 Advanced Pattern Analysis:", none, none⟩]
  ++ (if ¬ s.patterns_checked.isEmpty then
        [⟨"info", "  Patterns analyzed: " ++ String.intercalate ", " s.patterns_checked,
          none, none⟩]
      else [])
  ++ s.details.map (fun detail =>
      if str_starts_with detail "✓" then ⟨"success", "  " ++ detail, none, none⟩
      else if str_starts_with detail "✗" then ⟨"warning", "  " ++ detail, none, none⟩
      else ⟨"info", "  " ++ detail, none, none⟩)

/-- `FeedbackGenerator._add_helpful_hints` (278-314): one tip block per weak
component (absent components read score 0). -/
def add_helpful_hints (vr : FeedbackInput) : List FeedbackItem :=
  let score_of (o : Option ComponentResult) : ℚ := (o.map (fun r => r.score)).getD 0
  let hints :=
    (if score_of vr.imports < 50 then
      ["💡 Tip: Check that all required imports are included at the top of your file"]
     else [])
    ++ (if score_of vr.structureRes < 50 then
      ["💡 Tip: Make sure your class/function names match the requirements exactly",
       "💡 Tip: Check that you\x27ve implemented all required methods/functions"]
     else [])
    ++ (if score_of vr.behavior < 50 then
      ["💡 Tip: Review the problem requirements - your code may be missing key functionality"]
     else [])
  if hints.isEmpty then []
  else ⟨"info", "", none, none⟩ :: hints.map (fun h => ⟨"info", h, none, none⟩)

/-- `FeedbackGenerator.generate_feedback` (12-127): syntax errors short
circuit to exactly one error item; old-format specs short circuit to the
admin warning; otherwise verdict summary, per-component feedback, optional
semantic block, and hints when the total is below 50. -/
def generate_feedback (vr : FeedbackInput) : List FeedbackItem :=
  if ¬ vr.parse_success then
    [⟨"error", "❌ Syntax Error: " ++ (vr.parse_error.getD "Unknown syntax error"),
      vr.error_line, vr.error_offset⟩]
  else if is_old_format_error vr.structureRes then
    old_format_warning vr.structureRes
  else
    let difficulty := vr.difficulty.getD "unknown"
    let verdict_item : FeedbackItem :=
      if vr.verdict = some "accepted" then
        ⟨"success", "🎉 Solution Accepted! Score: " ++ fmt1 vr.total_score
          ++ "/100 (" ++ py_capitalize difficulty ++ " level)", none, none⟩
      else if vr.verdict = some "partially_passed" then
        ⟨"warning", "⚠️ Partially Correct. Score: " ++ fmt1 vr.total_score
          ++ "/100. Review the feedback below to improve.", none, none⟩
      else
        ⟨"error", "❌ Solution Failed. Score: " ++ fmt1 vr.total_score
          ++ "/100. Please fix the errors below.", none, none⟩
    let semantic_block :=
      match vr.semantic with
      | some s => if ¬ s.patterns_checked.isEmpty then add_semantic_feedback s else []
      | none => []
    [verdict_item]
    ++ add_component_feedback vr.imports "Imports" "📦"
    ++ add_component_feedback vr.structureRes "Structure" "🏗️"
    ++ add_component_feedback vr.behavior "Behavior" "⚡"
    ++ semantic_block
    ++ (if vr.total_score < 50 then add_helpful_hints vr else [])

/-- The reduced outcome `SubmissionService.validate_submission` returns. -/
structure SubmissionOutcome where
  verdict : String
  score : ℚ
  parse_success : Bool
  parse_error : Option String := none
  error_line : Option Nat := none
  error_offset : Option Nat := none
  feedback : List FeedbackItem := []
deriving Repr, DecidableEq

/-- The parse-failure branch of `SubmissionService.validate_submission`
(`submission_service.py` 68-89): the parser's error, line and offset are
carried through and the feedback is generated from a parse-failure input. -/
def validate_submission_parse_failure (error : Option String)
    (line offset : Option Nat) : SubmissionOutcome :=
  { verdict := "syntax_error"
    score := 0
    parse_success := false
    parse_error := error
    error_line := line
    error_offset := offset
    feedback := generate_feedback
      { parse_success := false, parse_error := error, error_line := line,
        error_offset := offset, verdict := some "syntax_error", total_score := 0 } }

/-! ## Shared lemmas -/

/-- One counted check never passes more than it counts. -/
theorem chk_sound (ok : Bool) (dpass dfail : String) : (chk ok dpass dfail).sound := by
  cases ok <;> simp [chk, Checks.sound]

/-- Detail-only output counts nothing. -/
theorem note_sound (ds : List String) : (note ds).sound := by
  simp [note, Checks.sound]

/-- Accumulation preserves the counting invariant. -/
theorem add_sound {a b : Checks} (ha : a.sound) (hb : b.sound) : (a.add b).sound :=
  Nat.add_le_add ha hb

/-- Folding sound per-element checks over a list preserves the invariant. -/
theorem foldl_sound {α : Type} (f : α → Checks) (l : List α) (init : Checks)
    (hinit : init.sound) (hf : ∀ x, (f x).sound) :
    (l.foldl (fun acc x => acc.add (f x)) init).sound := by
  induction l generalizing init with
  | nil => exact hinit
  | cons x xs ih => exact ih _ (add_sound hinit (hf x))


/-- The beginner Django class note only emits details. -/
theorem beginner_django_class_note_sound (fw : String) (sem : Option Semantics)
    (cn : String) (d : ClassSpecD) :
    (beginner_django_class_note fw sem cn d).sound := by
  unfold beginner_django_class_note
  repeat' first | exact note_sound _ | split

/-- The beginner React class note only emits details. -/
theorem beginner_react_class_note_sound (fw : String) (sem : Option Semantics)
    (found : ClassInfo) (d : ClassSpecD) :
    (beginner_react_class_note fw sem found d).sound := by
  unfold beginner_react_class_note
  repeat' first | exact note_sound _ | split

/-- The beginner hook note only emits details. -/
theorem beginner_hook_note_sound (fw : String) (sem : Option Semantics) :
    (beginner_hook_note fw sem).sound := by
  unfold beginner_hook_note
  repeat' first | exact note_sound _ | split

/-- One beginner class requirement passes at most as many checks as it
counts. -/
theorem beginner_class_spec_checks_sound (fw : String) (sem : Option Semantics)
    (cls : List ClassInfo) (sp : ClassSpec) :
    (beginner_class_spec_checks fw sem cls sp).sound := by
  unfold beginner_class_spec_checks
  rcases sp with s | d
  · dsimp only
    split
    · exact chk_sound ..
    · exact chk_sound ..
  · dsimp only
    split
    · exact chk_sound ..
    · refine add_sound (add_sound (add_sound (chk_sound ..) ?_) ?_)
        (add_sound (beginner_django_class_note_sound ..)
          (beginner_react_class_note_sound ..))
      · split
        · exact note_sound _
        · exact chk_sound ..
      · split
        · exact note_sound _
        · exact foldl_sound _ _ _ (note_sound _) (fun _ => chk_sound ..)

/-- One beginner function requirement passes at most as many checks as it
counts. -/
theorem beginner_func_spec_checks_sound (fw : String) (sem : Option Semantics)
    (pc : ParsedCode) (sp : FuncSpec) :
    (beginner_func_spec_checks fw sem pc sp).sound := by
  unfold beginner_func_spec_checks
  rcases sp with s | d
  · dsimp only
    split
    · exact chk_sound ..
    · exact chk_sound ..
  · dsimp only
    split
    · exact chk_sound ..
    · refine add_sound (add_sound (add_sound (add_sound (chk_sound ..) ?_) ?_) ?_) ?_
      · split
        · exact note_sound _
        · exact chk_sound ..
      · split
        · split
          · exact add_sound (chk_sound ..) (beginner_hook_note_sound ..)
          · exact chk_sound ..
        · exact note_sound _
      · split
        · exact chk_sound ..
        · exact note_sound _
      · split
        · exact chk_sound ..
        · exact note_sound _

/-- The beginner structure accumulator satisfies the counting invariant. -/
theorem beginner_structure_checks_sound (pc : ParsedCode) (rs : RequiredStructure) :
    (beginner_structure_checks pc rs).sound := by
  unfold beginner_structure_checks
  dsimp only
  apply add_sound
  · split
    · split
      · exact note_sound _
      · exact foldl_sound _ _ _ (note_sound _)
          (fun s => beginner_class_spec_checks_sound _ _ _ s)
    · exact note_sound _
  · split
    · split
      · exact note_sound _
      · exact foldl_sound _ _ _ (note_sound _)
          (fun s => beginner_func_spec_checks_sound _ _ _ s)
    · exact note_sound _

/-- The intermediate Django class note only emits details. -/
theorem intermediate_django_class_note_sound (d : ClassSpecD) (sem : Semantics) :
    (intermediate_django_class_note d sem).sound := by
  unfold intermediate_django_class_note
  repeat' first | exact note_sound _ | split | dsimp only

/-- The intermediate React class note only emits details. -/
theorem intermediate_react_class_note_sound (d : ClassSpecD) (found : ClassInfo)
    (sem : Semantics) :
    (intermediate_react_class_note d found sem).sound := by
  unfold intermediate_react_class_note
  repeat' first | exact note_sound _ | apply add_sound | split

/-- The intermediate Django function note only emits details. -/
theorem intermediate_django_func_note_sound (d : FuncSpecD) (sem : Semantics) :
    (intermediate_django_func_note d sem).sound := by
  unfold intermediate_django_func_note
  repeat' first | exact note_sound _ | apply add_sound | split

/-- The intermediate React function note only emits details. -/
theorem intermediate_react_func_note_sound (d : FuncSpecD) (sem : Semantics) :
    (intermediate_react_func_note d sem).sound := by
  unfold intermediate_react_func_note
  repeat' first | exact note_sound _ | split | dsimp only

/-- One intermediate class requirement passes at most as many checks as it
counts. -/
theorem intermediate_class_spec_checks_sound (fw : String) (sem : Semantics)
    (cls : List ClassInfo) (sp : ClassSpec) :
    (intermediate_class_spec_checks fw sem cls sp).sound := by
  unfold intermediate_class_spec_checks
  rcases sp with s | d
  · exact note_sound _
  · dsimp only
    split
    · exact note_sound _
    · split
      · exact chk_sound ..
      · refine add_sound (chk_sound ..) ?_
        repeat' first
          | exact intermediate_django_class_note_sound ..
          | exact intermediate_react_class_note_sound ..
          | exact note_sound _
          | split

/-- One intermediate function requirement passes at most as many checks as
it counts. -/
theorem intermediate_func_spec_checks_sound (fw : String) (sem : Semantics)
    (fns : List FunctionInfo) (sp : FuncSpec) :
    (intermediate_func_spec_checks fw sem fns sp).sound := by
  unfold intermediate_func_spec_checks
  rcases sp with s | d
  · exact note_sound _
  · dsimp only
    split
    · exact note_sound _
    · split
      · exact chk_sound ..
      · refine add_sound (add_sound (chk_sound ..) ?_) ?_
        · split
          · exact note_sound _
          · exact chk_sound ..
        · repeat' first
            | exact intermediate_django_func_note_sound ..
            | exact intermediate_react_func_note_sound ..
            | exact note_sound _
            | split

/-- The intermediate structure accumulator satisfies the counting
invariant. -/
theorem intermediate_structure_checks_sound (pc : ParsedCode)
    (rs : RequiredStructure) : (intermediate_structure_checks pc rs).sound := by
  unfold intermediate_structure_checks
  dsimp only
  apply add_sound
  · split
    · exact foldl_sound _ _ _ (note_sound _)
        (fun s => intermediate_class_spec_checks_sound _ _ _ s)
    · exact note_sound _
  · split
    · exact foldl_sound _ _ _ (note_sound _)
        (fun s => intermediate_func_spec_checks_sound _ _ _ s)
    · exact note_sound _

/-- `p/t * 100` lies in `[0, 100]` whenever `p ≤ t` and `t ≠ 0`. -/
theorem ratio_score_bounds (p t : ℕ) (hpt : p ≤ t) (ht : t ≠ 0) :
    0 ≤ (p : ℚ) / t * 100 ∧ (p : ℚ) / t * 100 ≤ 100 := by
  have ht' : (0 : ℚ) < t := by
    have h0 : 0 < t := Nat.pos_of_ne_zero ht
    exact_mod_cast h0
  constructor
  · positivity
  · have h1 : (p : ℚ) / t ≤ 1 := by
      rw [div_le_one ht']
      exact_mod_cast hpt
    nlinarith

/-! ## Claim theorems -/

/-- C5: for every aggregated result, the verdict is a pure function of
`(total_score, passing_score)`: `accepted` iff the total reaches the
passing score, `partially_passed` iff it lies in
`[0.6 * passing_score, passing_score)`, and `failed` otherwise (i.e. the
total is below both thresholds). -/
theorem verdict_pure_function_of_thresholds (total_score passing_score : ℚ) :
    (determine_verdict total_score passing_score = "accepted" ↔
      passing_score ≤ total_score) ∧
    (determine_verdict total_score passing_score = "partially_passed" ↔
      0.6 * passing_score ≤ total_score ∧ total_score < passing_score) ∧
    (determine_verdict total_score passing_score = "failed" ↔
      total_score < passing_score ∧ total_score < 0.6 * passing_score) := by
  unfold determine_verdict
  split_ifs with h1 h2
  · refine ⟨⟨fun _ => h1, fun _ => rfl⟩, ⟨fun h => absurd h (by decide), ?_⟩,
      ⟨fun h => absurd h (by decide), ?_⟩⟩
    · rintro ⟨-, hlt⟩
      exact absurd h1 (not_le.mpr hlt)
    · rintro ⟨hlt, -⟩
      exact absurd h1 (not_le.mpr hlt)
  · refine ⟨⟨fun h => absurd h (by decide), fun h => absurd h h1⟩,
      ⟨fun _ => ⟨by linarith [h2], not_le.mp h1⟩, fun _ => rfl⟩,
      ⟨fun h => absurd h (by decide), ?_⟩⟩
    rintro ⟨-, hlt⟩
    exact absurd (by linarith [h2] : 0.6 * passing_score ≤ total_score)
      (not_le.mpr hlt)
  · refine ⟨⟨fun h => absurd h (by decide), fun h => absurd h h1⟩,
      ⟨fun h => absurd h (by decide), ?_⟩, ⟨fun _ => ⟨not_le.mp h1, ?_⟩, fun _ => rfl⟩⟩
    · rintro ⟨hge, -⟩
      exact absurd (by linarith : total_score ≥ passing_score * 0.6) h2
    · have := not_le.mp h2
      linarith

/-- C4 (the code against the claim): the temporary file handed to the Node
subprocess is deleted only on the paths where the embedded script runs to
completion (success and in-script parse error); on spawn failure (Node.js
unavailable) and on timeout the invocation leaves the artifact behind,
because the only deletion lives in the script's `finally` block and the
Python exception handlers perform no cleanup. -/
theorem node_temp_file_cleanup_paths :
    (parse_javascript_with_node (.scriptCompleted true)).temp_file_deleted = true ∧
    (parse_javascript_with_node (.scriptCompleted false)).temp_file_deleted = true ∧
    (parse_javascript_with_node .spawnFailure).temp_file_deleted = false ∧
    (parse_javascript_with_node .timeoutExpired).temp_file_deleted = false := by
  refine ⟨rfl, rfl, rfl, rfl⟩

/-- C2 (the code against the claim): for a framework string outside the
five registered ones, `FrameworkAnalyzerFactory.create_analyzer` does not
return a no-op analyzer — its fallback branch instantiates the abstract
`BaseSemanticAnalyzer`, which raises `TypeError`. -/
theorem create_analyzer_unknown_framework_raises :
    create_analyzer "vue" =
      Except.error (PyError.typeError
        "Can\x27t instantiate abstract class BaseSemanticAnalyzer with abstract method analyze") ∧
    create_analyzer "unknown" =
      Except.error (PyError.typeError
        "Can\x27t instantiate abstract class BaseSemanticAnalyzer with abstract method analyze") := by
  refine ⟨rfl, rfl⟩

/-- C9: every parse-failure outcome has verdict `syntax_error`, score 0,
`parse_success = false`, carries the failing line and offset, and its
feedback is exactly one item of type `error`. -/
theorem parse_failure_outcome_shape (error : Option String) (line offset : Option Nat) :
    (validate_submission_parse_failure error line offset).verdict = "syntax_error" ∧
    (validate_submission_parse_failure error line offset).score = 0 ∧
    (validate_submission_parse_failure error line offset).parse_success = false ∧
    (validate_submission_parse_failure error line offset).error_line = line ∧
    (validate_submission_parse_failure error line offset).error_offset = offset ∧
    (validate_submission_parse_failure error line offset).feedback =
      [⟨"error", "❌ Syntax Error: " ++ (error.getD "Unknown syntax error"),
        line, offset⟩] ∧
    (validate_submission_parse_failure error line offset).feedback.length = 1 ∧
    ∀ item ∈ (validate_submission_parse_failure error line offset).feedback,
      item.type = "error" := by
  refine ⟨rfl, rfl, rfl, rfl, rfl, rfl, rfl, ?_⟩
  intro item hmem
  simp only [validate_submission_parse_failure, generate_feedback] at hmem
  norm_num at hmem
  subst hmem
  rfl

/-- Three perfect component results (raw score 100 each). -/
def perfect_results : TierResults :=
  ⟨⟨true, 100, []⟩, ⟨true, 100, []⟩, ⟨true, 100, []⟩⟩

/-- Under-sum weights: 10/10/10, summing to 30. -/
def under_sum_scoring : Scoring := ⟨10, 10, 10⟩

/-- C1 counterexample: with weights 10/10/10 (under-sum) and all raw scores
100, the engine reports 100 — it renormalizes by the weight total — while
`min(100, Σ weighted_score)` is 30, so the reported total is not capped
below 100 on under-sum weights as the claim states. -/
theorem overall_score_not_min_weighted_sum :
    calculate_overall_score perfect_results under_sum_scoring = 100 ∧
    claimed_total_score perfect_results under_sum_scoring = 30 ∧
    calculate_overall_score perfect_results under_sum_scoring ≠
      claimed_total_score perfect_results under_sum_scoring := by
  refine ⟨?_, ?_, ?_⟩
  · norm_num [calculate_overall_score, perfect_results, under_sum_scoring]
  · norm_num [claimed_total_score, perfect_results, under_sum_scoring]
  · norm_num [calculate_overall_score, claimed_total_score, perfect_results,
      under_sum_scoring]

/-- C1 amended: the reported total is the weight-normalized average
`(Σ raw·weight/100) / (Σ weight) · 100` (0 when the weights sum to 0), not
`min(100, Σ weighted_score)`; the two agree exactly on the intended inputs,
namely non-negative weights summing to 100 with raw scores in `[0, 100]`.
(`ScoreAggregator.aggregate_scores`, which does compute
`min(100, Σ weighted_score)`, is imported but never invoked on the reported
path.) -/
theorem overall_score_normalizes_by_weight_total (R : TierResults) (S : Scoring) :
    (calculate_overall_score R S =
      if S.import_weight + S.structure_weight + S.behavior_weight = 0 then 0
      else
        (R.imports.score * S.import_weight / 100
          + R.structureRes.score * S.structure_weight / 100
          + R.behavior.score * S.behavior_weight / 100)
        / (S.import_weight + S.structure_weight + S.behavior_weight) * 100) ∧
    (0 ≤ S.import_weight → 0 ≤ S.structure_weight → 0 ≤ S.behavior_weight →
      S.import_weight + S.structure_weight + S.behavior_weight = 100 →
      R.imports.score ≤ 100 → R.structureRes.score ≤ 100 → R.behavior.score ≤ 100 →
      calculate_overall_score R S = claimed_total_score R S) := by
  have hmain : calculate_overall_score R S =
      if S.import_weight + S.structure_weight + S.behavior_weight = 0 then 0
      else
        (R.imports.score * S.import_weight / 100
          + R.structureRes.score * S.structure_weight / 100
          + R.behavior.score * S.behavior_weight / 100)
        / (S.import_weight + S.structure_weight + S.behavior_weight) * 100 := by
    unfold calculate_overall_score
    simp only [List.foldl]
    rw [show (0 : ℚ) + S.import_weight + S.structure_weight + S.behavior_weight =
      S.import_weight + S.structure_weight + S.behavior_weight by ring]
    split_ifs with h
    · rfl
    · ring
  refine ⟨hmain, fun hw1 hw2 hw3 hsum hs1 hs2 hs3 => ?_⟩
  rw [hmain, hsum]
  have hT : R.imports.score * S.import_weight / 100
      + R.structureRes.score * S.structure_weight / 100
      + R.behavior.score * S.behavior_weight / 100 ≤ 100 := by
    have h1 : R.imports.score * S.import_weight ≤ 100 * S.import_weight :=
      mul_le_mul_of_nonneg_right hs1 hw1
    have h2 : R.structureRes.score * S.structure_weight ≤ 100 * S.structure_weight :=
      mul_le_mul_of_nonneg_right hs2 hw2
    have h3 : R.behavior.score * S.behavior_weight ≤ 100 * S.behavior_weight :=
      mul_le_mul_of_nonneg_right hs3 hw3
    have hsum' : S.import_weight + S.structure_weight + S.behavior_weight = 100 := hsum
    linarith
  rw [if_neg (by norm_num)]
  unfold claimed_total_score
  rw [min_eq_right hT]
  ring

/-- C1 witness: with the intended weights 15/40/45 (summing to 100) and all
raw scores 100, the engine's reported total and the specification's
`min(100, Σ weighted_score)` coincide. -/
theorem overall_score_normalizes_by_weight_total_witness :
    (0 : ℚ) ≤ 15 ∧ (15 : ℚ) + 40 + 45 = 100 ∧
    calculate_overall_score perfect_results ⟨15, 40, 45⟩ =
      claimed_total_score perfect_results ⟨15, 40, 45⟩ :=
  ⟨by norm_num, by norm_num,
   (overall_score_normalizes_by_weight_total perfect_results ⟨15, 40, 45⟩).2
     (by norm_num) (by norm_num) (by norm_num) (by norm_num)
     (by norm_num [perfect_results]) (by norm_num [perfect_results])
     (by norm_num [perfect_results])⟩

/-- The imports component score lies in `[0, 100]`. -/
theorem validate_imports_common_score_bounds (pc : ParsedCode) (req : List String) :
    0 ≤ (validate_imports_common pc req).score ∧
    (validate_imports_common pc req).score ≤ 100 := by
  unfold validate_imports_common
  split
  · exact ⟨by norm_num, by norm_num⟩
  · dsimp only
    split
    · exact ⟨by norm_num, by norm_num⟩
    · rename_i hreq hmiss
      constructor
      · exact le_max_left 0 _
      · apply max_le (by norm_num)
        have hlen : (req.filter
            (fun required => ¬ is_import_match_enhanced required
              (extract_all_imports pc.imports))).length ≤ req.length :=
          List.length_filter_le _ _
        have hr : (0 : ℚ) < req.length := by
          have : req ≠ [] := fun h => hreq (by simp [h])
          have : 0 < req.length := List.length_pos.mpr this
          exact_mod_cast this
        rw [div_mul_eq_mul_div, div_le_iff₀ hr]
        have hm : (0 : ℚ) ≤ (req.filter
            (fun required => ¬ is_import_match_enhanced required
              (extract_all_imports pc.imports))).length := by positivity
        nlinarith

/-- The beginner structure component score lies in `[0, 100]`. -/
theorem beginner_structure_score_bounds (pc : ParsedCode) (rs : RequiredStructure) :
    0 ≤ (validate_structure_enhanced_beginner pc rs).score ∧
    (validate_structure_enhanced_beginner pc rs).score ≤ 100 := by
  unfold validate_structure_enhanced_beginner
  dsimp only
  split
  · exact ⟨le_refl 0, by norm_num⟩
  · rename_i h
    exact ratio_score_bounds _ _ (beginner_structure_checks_sound pc rs) h

/-- The intermediate structure component score lies in `[0, 100]`. -/
theorem intermediate_structure_score_bounds (pc : ParsedCode) (rs : RequiredStructure) :
    0 ≤ (validate_structure_enhanced_intermediate pc rs).score ∧
    (validate_structure_enhanced_intermediate pc rs).score ≤ 100 := by
  unfold validate_structure_enhanced_intermediate
  dsimp only
  split
  · exact ⟨le_refl 0, by norm_num⟩
  · rename_i h
    exact ratio_score_bounds _ _ (intermediate_structure_checks_sound pc rs) h

/-- The beginner behavior component score lies in `[0, 100]`. -/
theorem beginner_behavior_score_bounds (pc : ParsedCode) (bp : List Pattern)
    (code : String) :
    0 ≤ (validate_behavior_enhanced_beginner pc bp code).score ∧
    (validate_behavior_enhanced_beginner pc bp code).score ≤ 100 := by
  unfold validate_behavior_enhanced_beginner
  split
  · exact ⟨by norm_num, by norm_num⟩
  · rename_i h
    dsimp only
    refine ratio_score_bounds _ _ ?_ ?_
    · calc ((bp.map (beginner_behavior_step (pc.framework.getD "unknown")
            pc.semantics code)).filter (fun st => st.1)).length
          ≤ (bp.map (beginner_behavior_step (pc.framework.getD "unknown")
            pc.semantics code)).length := List.length_filter_le _ _
        _ = bp.length := List.length_map _ _
    · intro hlen
      exact h (List.isEmpty_iff.mpr (List.eq_nil_of_length_eq_zero hlen))

/-- The intermediate behavior component score lies in `[0, 100]` for every
handler table. -/
theorem intermediate_behavior_score_bounds (H : PatternHandlers) (pc : ParsedCode)
    (bp : List Pattern) (code fw : String) :
    0 ≤ (validate_behavior_enhanced_intermediate H pc bp code fw).score ∧
    (validate_behavior_enhanced_intermediate H pc bp code fw).score ≤ 100 := by
  unfold validate_behavior_enhanced_intermediate
  split
  · exact ⟨by norm_num, by norm_num⟩
  · rename_i h
    dsimp only
    refine ratio_score_bounds _ _ ?_ ?_
    · calc ((bp.map (intermediate_behavior_step H (pc.semantics.getD {}) code fw)).filter
            (fun st => st.1)).length
          ≤ (bp.map (intermediate_behavior_step H (pc.semantics.getD {}) code fw)).length :=
            List.length_filter_le _ _
        _ = bp.length := List.length_map _ _
    · intro hlen
      exact h (List.isEmpty_iff.mpr (List.eq_nil_of_length_eq_zero hlen))

/-- C6: every component result produced by import, structure or behavior
validation, in the beginner and the intermediate tier alike, has a raw
score in the closed interval `[0, 100]`. -/
theorem component_raw_scores_in_range :
    (∀ (pc : ParsedCode) (req : List String),
      0 ≤ (validate_imports_common pc req).score ∧
      (validate_imports_common pc req).score ≤ 100) ∧
    (∀ (pc : ParsedCode) (rs : RequiredStructure),
      0 ≤ (validate_structure_enhanced_beginner pc rs).score ∧
      (validate_structure_enhanced_beginner pc rs).score ≤ 100) ∧
    (∀ (pc : ParsedCode) (bp : List Pattern) (code : String),
      0 ≤ (validate_behavior_enhanced_beginner pc bp code).score ∧
      (validate_behavior_enhanced_beginner pc bp code).score ≤ 100) ∧
    (∀ (pc : ParsedCode) (rs : RequiredStructure),
      0 ≤ (validate_structure_enhanced_intermediate pc rs).score ∧
      (validate_structure_enhanced_intermediate pc rs).score ≤ 100) ∧
    (∀ (H : PatternHandlers) (pc : ParsedCode) (bp : List Pattern) (code fw : String),
      0 ≤ (validate_behavior_enhanced_intermediate H pc bp code fw).score ∧
      (validate_behavior_enhanced_intermediate H pc bp code fw).score ≤ 100) :=
  ⟨validate_imports_common_score_bounds, beginner_structure_score_bounds,
   beginner_behavior_score_bounds, intermediate_structure_score_bounds,
   intermediate_behavior_score_bounds⟩

/-- C7: in both tiers, structure validation scores
`checks_passed / total_checks * 100` when at least one check is declared,
and an explicitly-zero score with a diagnostic detail (never a vacuous 100)
when zero checks are declared. -/
theorem structure_score_formula_and_zero_case (pc : ParsedCode) (rs : RequiredStructure) :
    ((beginner_structure_checks pc rs).total ≠ 0 →
      (validate_structure_enhanced_beginner pc rs).score =
        ((beginner_structure_checks pc rs).passed : ℚ)
          / ((beginner_structure_checks pc rs).total : ℚ) * 100) ∧
    ((beginner_structure_checks pc rs).total = 0 →
      validate_structure_enhanced_beginner pc rs =
        ⟨false, 0,
         ["⚠️ No structure validation performed - check validation spec format"]⟩) ∧
    ((intermediate_structure_checks pc rs).total ≠ 0 →
      (validate_structure_enhanced_intermediate pc rs).score =
        ((intermediate_structure_checks pc rs).passed : ℚ)
          / ((intermediate_structure_checks pc rs).total : ℚ) * 100) ∧
    ((intermediate_structure_checks pc rs).total = 0 →
      validate_structure_enhanced_intermediate pc rs =
        ⟨false, 0, ["⚠️ No structure validation"]⟩) := by
  refine ⟨fun h => ?_, fun h => ?_, fun h => ?_, fun h => ?_⟩ <;>
    simp [validate_structure_enhanced_beginner,
      validate_structure_enhanced_intermediate, h]

/-- C7 witness: a spec requiring class `Book` against a parse result
containing it counts one passed check out of one and scores `1/1 * 100`,
while the empty spec declares zero checks and scores an explicit 0 with the
diagnostic detail. -/
theorem structure_score_formula_and_zero_case_witness :
    (beginner_structure_checks
        { classes := [{ name := "Book" }] }
        { classes := some [.nameOnly "Book"] }).total ≠ 0 ∧
    (validate_structure_enhanced_beginner
        { classes := [{ name := "Book" }] }
        { classes := some [.nameOnly "Book"] }).score =
      ((beginner_structure_checks
          { classes := [{ name := "Book" }] }
          { classes := some [.nameOnly "Book"] }).passed : ℚ)
        / ((beginner_structure_checks
          { classes := [{ name := "Book" }] }
          { classes := some [.nameOnly "Book"] }).total : ℚ) * 100 ∧
    (beginner_structure_checks {} {}).total = 0 ∧
    validate_structure_enhanced_beginner {} {} =
      ⟨false, 0,
       ["⚠️ No structure validation performed - check validation spec format"]⟩ ∧
    validate_structure_enhanced_intermediate {} {} =
      ⟨false, 0, ["⚠️ No structure validation"]⟩ :=
  ⟨by decide,
   (structure_score_formula_and_zero_case
      { classes := [{ name := "Book" }] }
      { classes := some [.nameOnly "Book"] }).1 (by decide),
   by decide,
   ((structure_score_formula_and_zero_case {} {}).2).1 (by decide),
   (((structure_score_formula_and_zero_case {} {}).2).2).2 (by decide)⟩

/-- The import-matching rule as the specification words it: a required
module `r` is matched when some found import `f` overlaps it as a substring
in either direction (`r` contained in `f`, `f` contained in `r`, or every
dotted part of `r` occurring in `f`); for a relative import (leading dot)
the applicable rule is instead that some `f` contains or ends with one of
the normalized variants of `r` — the dot-stripped form, the
underscore-normalized form, or the last dotted segment. -/
def import_match_claim (required : String) (found_imports : List String) : Bool :=
  if str_starts_with required "." then
    let stripped := lstrip_dots required
    let underscored := replace_dots_underscore stripped
    let last_segment := (py_split_dot stripped).getLastD ""
    found_imports.any fun f =>
      str_contains f stripped || str_ends_with f stripped ||
      str_contains f underscored || str_ends_with f underscored ||
      str_contains f last_segment || str_ends_with f last_segment
  else
    found_imports.any fun f =>
      str_contains f required || str_contains required f ||
      (py_split_dot required).all fun part => str_contains f part

/-- C8: the implemented import matcher agrees with the specification's
rule for every required import and candidate set, and in particular the
required `django.db.models` is matched by a found `models` and the
required relative `.serializers` is matched by a found `serializers` —
both directly from the extracted candidates of the corresponding parse
results. -/
theorem import_matching_follows_spec :
    (∀ (required : String) (found_imports : List String),
      is_import_match_enhanced required found_imports =
        import_match_claim required found_imports) ∧
    is_import_match_enhanced "django.db.models"
      (extract_all_imports [{ type := "from_import", module := "django.db",
                              name := "models" }]) = true ∧
    is_import_match_enhanced "django.db.models" ["models"] = true ∧
    is_import_match_enhanced ".serializers" ["serializers"] = true := by
  refine ⟨fun required found_imports => ?_, by decide, by decide, by decide⟩
  unfold is_import_match_enhanced import_match_claim
  split
  · dsimp only
    congr 1
    funext f
    simp [Bool.or_assoc]
  · rfl

/-- An arbitrary concrete handler table used to instantiate
handler-polymorphic theorems. -/
def trivial_handlers : PatternHandlers :=
  ⟨fun _ _ _ _ => ⟨false, ""⟩, fun _ _ _ _ => ⟨false, ""⟩⟩

/-- A structured pattern whose type no validator recognizes but whose
description keyword occurs in the submitted code. -/
def unrecognized_pattern : StructuredPattern :=
  { type := some "custom_check", description := some "useState hook usage" }

/-- C3 counterexample: in the beginner tier (framework `react`), the
structured pattern of unrecognized type `custom_check` does not fail
closed — the fallback keyword match on its description finds `useState` in
the code and the pattern passes. -/
theorem unknown_pattern_type_passes_in_beginner_tier :
    "custom_check" ∉ ["hook_call", "state_management", "event_handler",
                      "conditional_rendering"] ∧
    (validate_structured_pattern_basic unrecognized_pattern {}
      "const [count, setCount] = useState(0)" "react").passed = true := by
  refine ⟨by decide, by decide⟩

/-- C3 amended: in the intermediate tier a structured pattern whose type is
unrecognized for the framework does fail closed — for django, react and
unregistered frameworks with the diagnostic `Unknown pattern type: <t>`,
and with the not-implemented diagnostic for express/angular — and the
behavior loop still evaluates every pattern; in the beginner tier, however,
a structured pattern whose type is outside the tier's recognized set falls
back to keyword matching on its description (its `str()` when absent) and
passes exactly when a keyword longer than three characters occurs in the
code. -/
theorem unknown_pattern_type_dispatch :
    (∀ (H : PatternHandlers) (p : StructuredPattern) (sem : Semantics)
        (code t : String),
      p.type = some t → t ∉ django_pattern_types → t ∉ react_pattern_types →
      t ∉ generic_pattern_types → t ≠ "ternary_operator" → t ≠ "prop_types" →
      validate_structured_pattern H p sem code "django" =
        ⟨false, "Unknown pattern type: " ++ t⟩ ∧
      validate_structured_pattern H p sem code "react" =
        ⟨false, "Unknown pattern type: " ++ t⟩ ∧
      validate_structured_pattern H p sem code "unknown" =
        ⟨false, "Unknown pattern type: " ++ t⟩ ∧
      validate_structured_pattern H p sem code "express" =
        ⟨false, "Express pattern validation not implemented: " ++ t⟩ ∧
      validate_structured_pattern H p sem code "angular" =
        ⟨false, "Angular pattern validation not implemented: " ++ t⟩) ∧
    (∀ (H : PatternHandlers) (pc : ParsedCode) (bp : List Pattern) (code fw : String),
      bp ≠ [] →
      (validate_behavior_enhanced_intermediate H pc bp code fw).details.length =
        bp.length) ∧
    (∀ (pc : ParsedCode) (bp : List Pattern) (code : String),
      bp ≠ [] →
      (validate_behavior_enhanced_beginner pc bp code).details.length = bp.length) ∧
    (∀ (p : StructuredPattern) (sem : Semantics) (code t : String),
      p.type = some t →
      t ∉ ["hook_call", "state_management", "event_handler", "conditional_rendering"] →
      validate_structured_pattern_basic p sem code "react" =
        ⟨keyword_match (p.description.getD p.pyStr) code,
         p.description.getD p.pyStr⟩) ∧
    (∀ (p : StructuredPattern) (sem : Semantics) (code t : String),
      p.type = some t →
      t ∉ ["model_field", "queryset_operation", "serializer"] →
      validate_structured_pattern_basic p sem code "django" =
        ⟨keyword_match (p.description.getD p.pyStr) code,
         p.description.getD p.pyStr⟩) ∧
    (∀ (p : StructuredPattern) (sem : Semantics) (code fw : String),
      fw ≠ "react" → fw ≠ "django" →
      validate_structured_pattern_basic p sem code fw =
        ⟨keyword_match (p.description.getD p.pyStr) code,
         p.description.getD p.pyStr⟩) := by
  refine ⟨?_, ?_, ?_, ?_, ?_, ?_⟩
  · intro H p sem code t hp hd hr hg ht1 ht2
    simp only [django_pattern_types, List.mem_cons, List.not_mem_nil, or_false,
      not_or] at hd
    simp only [react_pattern_types, List.mem_cons, List.not_mem_nil, or_false,
      not_or] at hr
    simp only [generic_pattern_types, List.mem_cons, List.not_mem_nil, or_false,
      not_or] at hg
    obtain ⟨hd1, hd2, hd3, hd4, hd5, hd6, hd7, hd8, hd9, hd10, hd11, hd12, hd13⟩ := hd
    obtain ⟨hr1, hr2, hr3, hr4, hr5, hr6, hr7, hr8, hr9, hr10, hr11, hr12, hr13,
      hr14⟩ := hr
    obtain ⟨hg1, hg2, hg3, hg4, hg5⟩ := hg
    refine ⟨?_, ?_, ?_, ?_, ?_⟩ <;>
      simp [validate_structured_pattern, validate_django_pattern,
        validate_react_pattern, validate_generic_pattern,
        validate_express_pattern, validate_angular_pattern,
        django_pattern_types, react_pattern_types, opt_str, hp,
        hd1, hd2, hd3, hd4, hd5, hd6, hd7, hd8, hd9, hd10, hd11, hd12, hd13,
        hr1, hr2, hr3, hr4, hr5, hr6, hr7, hr8, hr9, hr10, hr11, hr12, hr13, hr14,
        hg1, hg2, hg3, hg4, hg5, ht1, ht2]
  · intro H pc bp code fw h
    simp [validate_behavior_enhanced_intermediate, List.isEmpty_iff, h]
  · intro pc bp code h
    simp [validate_behavior_enhanced_beginner, List.isEmpty_iff, h]
  · intro p sem code t hp hmem
    simp only [List.mem_cons, List.not_mem_nil, or_false, not_or] at hmem
    simp [validate_structured_pattern_basic, hp, hmem.1, hmem.2.1,
      hmem.2.2.1, hmem.2.2.2]
  · intro p sem code t hp hmem
    simp only [List.mem_cons, List.not_mem_nil, or_false, not_or] at hmem
    simp [validate_structured_pattern_basic, hp, hmem.1, hmem.2.1, hmem.2.2]
  · intro p sem code fw h1 h2
    simp [validate_structured_pattern_basic, h1, h2]

/-- C3 witness: applying the dispatch theorem at the concrete unrecognized
type `custom_check` — the intermediate tier fails it closed with the
diagnostic, the beginner tier reduces it to the keyword fallback. -/
theorem unknown_pattern_type_dispatch_witness :
    "custom_check" ∉ django_pattern_types ∧
    validate_structured_pattern trivial_handlers
      { type := some "custom_check" } {} "" "django" =
      ⟨false, "Unknown pattern type: custom_check"⟩ ∧
    validate_structured_pattern_basic { type := some "custom_check", pyStr := "" }
      {} "" "react" = ⟨keyword_match "" "", ""⟩ :=
  ⟨by decide,
   ((unknown_pattern_type_dispatch.1 trivial_handlers
      { type := some "custom_check" } {} "" "custom_check" rfl (by decide)
      (by decide) (by decide) (by decide) (by decide)).1),
   by
    have h := (unknown_pattern_type_dispatch.2.2.2.1
      { type := some "custom_check", pyStr := "" } {} "" "custom_check" rfl
      (by decide))
    simpa using h⟩

/-- The five framework names registered in the analyzer factory. -/
def registered_frameworks : List String :=
  ["django", "react", "express", "angular", "nodejs"]

/-- The factory succeeds exactly on the registered frameworks (after
lowercasing). -/
theorem create_analyzer_ok_of_registered (fw : String)
    (h : py_lower fw ∈ registered_frameworks) :
    ∃ k, create_analyzer fw = .ok k := by
  simp only [registered_frameworks, List.mem_cons, List.not_mem_nil, or_false] at h
  unfold create_analyzer
  rcases h with h | h | h | h | h <;> simp [h]

/-- The factory raises on every framework outside the registered five. -/
theorem create_analyzer_error_of_unregistered (fw : String)
    (h : py_lower fw ∉ registered_frameworks) :
    create_analyzer fw = .error (.typeError
      "Can\x27t instantiate abstract class BaseSemanticAnalyzer with abstract method analyze") := by
  simp only [registered_frameworks, List.mem_cons, List.not_mem_nil, or_false,
    not_or] at h
  unfold create_analyzer
  simp [h.1, h.2.1, h.2.2.1, h.2.2.2.1, h.2.2.2.2]

/-- The analyze function used to instantiate analyzer-polymorphic theorems
at a concrete point: every analyzer yields the empty profile. -/
def empty_profile_analyze : AnalyzerKind → String → ParsedCode → Semantics :=
  fun _ _ _ => {}

/-- C10 counterexample: the intermediate validator does not always add the
`semantics`/`framework` keys — called with the default framework
`unknown` (any unregistered framework string behaves the same), it raises
the factory's `TypeError` before mutating the parse result, so there is no
post-state at all. -/
theorem intermediate_validate_unknown_framework_raises :
    intermediate_validate empty_profile_analyze trivial_handlers {} {} "" =
      .error (.typeError
        "Can\x27t instantiate abstract class BaseSemanticAnalyzer with abstract method analyze") := by
  rfl

/-- C10 amended: after a `validate` call that completes, the parse-result
dict additionally contains `semantics` and `framework` while the
parser-produced keys are unchanged — but only for the five registered
frameworks.  The beginner tier skips the analysis entirely for the literal
framework `unknown` (adding no keys), and both tiers raise the factory's
`TypeError` (completing with no post-state) for every other unregistered
framework string. -/
theorem validate_mutates_parsed_code (analyze : AnalyzerKind → String → ParsedCode → Semantics)
    (H : PatternHandlers) (pc : ParsedCode) (spec : ValidationSpec) (code : String) :
    (py_lower (spec.framework.getD "unknown") ∈ registered_frameworks →
      spec.framework.getD "unknown" ≠ "unknown" →
      ∃ r pc', beginner_validate analyze pc spec code = .ok (r, pc') ∧
        pc'.semantics.isSome ∧
        pc'.framework = some (spec.framework.getD "unknown") ∧
        pc'.success = pc.success ∧ pc'.imports = pc.imports ∧
        pc'.classes = pc.classes ∧ pc'.functions = pc.functions ∧
        pc'.exports = pc.exports) ∧
    (spec.framework.getD "unknown" = "unknown" →
      ∃ r, beginner_validate analyze pc spec code = .ok (r, pc)) ∧
    (py_lower (spec.framework.getD "unknown") ∉ registered_frameworks →
      spec.framework.getD "unknown" ≠ "unknown" →
      ∃ e, beginner_validate analyze pc spec code = .error e) ∧
    (py_lower (spec.framework.getD "unknown") ∈ registered_frameworks →
      ∃ r pc', intermediate_validate analyze H pc spec code = .ok (r, pc') ∧
        pc'.semantics.isSome ∧
        pc'.framework = some (spec.framework.getD "unknown") ∧
        pc'.success = pc.success ∧ pc'.imports = pc.imports ∧
        pc'.classes = pc.classes ∧ pc'.functions = pc.functions ∧
        pc'.exports = pc.exports) ∧
    (py_lower (spec.framework.getD "unknown") ∉ registered_frameworks →
      ∃ e, intermediate_validate analyze H pc spec code = .error e) := by
  refine ⟨?_, ?_, ?_, ?_, ?_⟩
  · intro hmem hne
    obtain ⟨k, hk⟩ := create_analyzer_ok_of_registered _ hmem
    have hrun : beginner_validate analyze pc spec code = .ok (⟨validate_imports_common { pc with semantics := some (analyze k code pc), framework := some (spec.framework.getD "unknown") } spec.required_imports, validate_structure_enhanced_beginner { pc with semantics := some (analyze k code pc), framework := some (spec.framework.getD "unknown") } spec.required_structure, validate_behavior_enhanced_beginner { pc with semantics := some (analyze k code pc), framework := some (spec.framework.getD "unknown") } spec.behavior_patterns code⟩, { pc with semantics := some (analyze k code pc), framework := some (spec.framework.getD "unknown") }) := by
      simp [beginner_validate, hne, hk]
    exact ⟨_, _, hrun, rfl, rfl, rfl, rfl, rfl, rfl, rfl⟩
  · intro h
    have hrun : beginner_validate analyze pc spec code = .ok (⟨validate_imports_common pc spec.required_imports, validate_structure_enhanced_beginner pc spec.required_structure, validate_behavior_enhanced_beginner pc spec.behavior_patterns code⟩, pc) := by
      simp [beginner_validate, h]
      rfl
    exact ⟨_, hrun⟩
  · intro hmem hne
    refine ⟨.typeError "Can\x27t instantiate abstract class BaseSemanticAnalyzer with abstract method analyze", ?_⟩
    simp [beginner_validate, hne, create_analyzer_error_of_unregistered _ hmem]
  · intro hmem
    obtain ⟨k, hk⟩ := create_analyzer_ok_of_registered _ hmem
    have hrun : intermediate_validate analyze H pc spec code = .ok (⟨validate_imports_common { pc with semantics := some (analyze k code pc), framework := some (spec.framework.getD "unknown") } spec.required_imports, validate_structure_enhanced_intermediate { pc with semantics := some (analyze k code pc), framework := some (spec.framework.getD "unknown") } spec.required_structure, validate_behavior_enhanced_intermediate H { pc with semantics := some (analyze k code pc), framework := some (spec.framework.getD "unknown") } spec.behavior_patterns code (spec.framework.getD "unknown")⟩, { pc with semantics := some (analyze k code pc), framework := some (spec.framework.getD "unknown") }) := by
      simp [intermediate_validate, hk]
    exact ⟨_, _, hrun, rfl, rfl, rfl, rfl, rfl, rfl, rfl⟩
  · intro hmem
    refine ⟨.typeError "Can\x27t instantiate abstract class BaseSemanticAnalyzer with abstract method analyze", ?_⟩
    simp [intermediate_validate, create_analyzer_error_of_unregistered _ hmem]

/-- C10 witness: applying the frame-effect theorem for the beginner tier at
framework `django` on an empty parse result. -/
theorem validate_mutates_parsed_code_witness :
    py_lower "django" ∈ registered_frameworks ∧ "django" ≠ "unknown" ∧
    ∃ r pc', beginner_validate empty_profile_analyze {}
        { framework := some "django" } "" = .ok (r, pc') ∧
      pc'.semantics.isSome ∧ pc'.framework = some "django" ∧
      pc'.success = ParsedCode.success {} ∧
      pc'.imports = ParsedCode.imports {} ∧
      pc'.classes = ParsedCode.classes {} ∧
      pc'.functions = ParsedCode.functions {} ∧
      pc'.exports = ParsedCode.exports {} :=
  ⟨by decide, by decide,
   (validate_mutates_parsed_code empty_profile_analyze trivial_handlers {}
      { framework := some "django" } "").1 (by decide) (by decide)⟩

/-- C9 witness: the parse-failure outcome for a concrete syntax error has
the claimed shape, and its single feedback item is of type `error`. -/
theorem parse_failure_outcome_shape_witness :
    (⟨"error", "❌ Syntax Error: Line 3: invalid syntax", some 3, some 7⟩ : FeedbackItem) ∈
      (validate_submission_parse_failure (some "Line 3: invalid syntax")
        (some 3) (some 7)).feedback ∧
    (⟨"error", "❌ Syntax Error: Line 3: invalid syntax", some 3, some 7⟩ :
      FeedbackItem).type = "error" :=
  ⟨by decide,
   (parse_failure_outcome_shape (some "Line 3: invalid syntax") (some 3)
      (some 7)).2.2.2.2.2.2.2
     ⟨"error", "❌ Syntax Error: Line 3: invalid syntax", some 3, some 7⟩
     (by decide)⟩
